import Mathlib

/-!
# Staffer-sims: verification of the turn-orchestration and analysis core

Shallow embedding of the conversation-simulation core:

* `src/simulation/simulation_engine.py` — runtime behavior dials, the
  interaction contract, the per-turn controller (seeded SHA-256 rolls,
  tangent cooldown), single-question enforcement, and the per-turn state
  of the orchestrator loop;
* `src/analysis/conversation_analyzer.py` — field extraction (ordered
  regex alternatives over the conversation text), the completeness and
  persona-adherence detectors, and the outcome classifier;
* `src/analysis/models.py` — the data model (failure categories,
  conversation status, failure details, outcomes).

Python strings are modelled as `List Char`, Python floats as `ℚ`
(all numeric constants in the source are exactly representable, and no
claim proved here depends on binary rounding of intermediate products),
Python ints as `ℕ`/`ℤ`.  Regular-expression calls are embedded through a
small backtracking engine (`RE`, `lengthsF`) whose alternation and greedy
ordering follows Python's `re` semantics, with each source pattern
transcribed as an `RE` value.
-/

set_option maxRecDepth 20000

abbrev Str := List Char

/-- Python `str.lower` / `str.upper` are applied per character; the source
only relies on ASCII case folding, which `Char.toLower` implements. -/
def pyLower (s : Str) : Str := s.map Char.toLower

/-- whitespace as recognised by Python `str.strip()` and `\s` (ASCII range). -/
def pyIsSpace (c : Char) : Bool :=
  c = ' ' || c = '\t' || c = '\n' || c = '\r' || c = '\x0b' || c = '\x0c'

/-- Python `str.strip()` with no argument. -/
def pyStrip (s : Str) : Str :=
  ((s.dropWhile pyIsSpace).reverse.dropWhile pyIsSpace).reverse

/-- Python `str.rstrip(c)` for a single strip character. -/
def pyRStrip (c : Char) (s : Str) : Str :=
  (s.reverse.dropWhile (· = c)).reverse

/-- Python `needle in hay` on strings (substring containment). -/
def containsSub (needle : Str) : Str → Bool
  | [] => needle.isEmpty
  | c :: rest => needle.isPrefixOf (c :: rest) || containsSub needle rest

/-- Python `str.title()`: first alphabetic character of each word upper-cased,
the rest lower-cased. -/
def pyTitle (s : Str) : Str :=
  (s.foldl (fun (st : Str × Bool) c =>
    if c.isAlpha then
      ((if st.2 then c.toLower else c.toUpper) :: st.1, true)
    else (c :: st.1, false)) ([], false)).1.reverse

/-- `ConversationAnalyzer.summary_phrases` (constructor). -/
def summary_phrases : List Str :=
  ["here's the role".toList, "here is the role".toList, "to summarize".toList,
   "summary of the role".toList, "candidate preview".toList, "publish".toList,
   "job description".toList, "role summary".toList, "should i lock these in".toList,
   "great, i've got everything".toList]

/-- `ConversationAnalyzer.check_sut_provided_summary`. -/
def check_sut_provided_summary (sut_reply : Str) : Bool :=
  summary_phrases.any (fun phrase => containsSub phrase (pyLower sut_reply))

/-- `ConversationAnalyzer.confirmation_phrases`. -/
def confirmation_phrases : List Str :=
  ["yes".toList, "looks good".toList, "that's correct".toList, "perfect".toList,
   "sounds good".toList, "that works".toList, "confirmed".toList, "accurate".toList,
   "exactly what i need".toList]

/-- `ConversationAnalyzer.check_proxy_confirmation`. -/
def check_proxy_confirmation (proxy_reply : Str) : Bool :=
  confirmation_phrases.any (fun phrase => containsSub phrase (pyLower proxy_reply))

/-! ### SHA-256 (`hashlib.sha256` as used by `_rand_01`)

Machine words are `ℕ` reduced mod `2^32`; the digest is produced as the
usual lower-case hex string so that `int(h[:8], 16)` can be modelled
verbatim. -/

def pow32 : ℕ := 4294967296

def rotr32 (n x : ℕ) : ℕ := ((x >>> n) ||| (x <<< (32 - n))) % pow32

def xor3 (a b c : ℕ) : ℕ := Nat.xor (Nat.xor a b) c

def sha256K : List ℕ :=
  [1116352408, 1899447441, 3049323471, 3921009573, 961987163, 1508970993,
   2453635748, 2870763221, 3624381080, 310598401, 607225278, 1426881987,
   1925078388, 2162078206, 2614888103, 3248222580, 3835390401, 4022224774,
   264347078, 604807628, 770255983, 1249150122, 1555081692, 1996064986,
   2554220882, 2821834349, 2952996808, 3210313671, 3336571891, 3584528711,
   113926993, 338241895, 666307205, 773529912, 1294757372, 1396182291,
   1695183700, 1986661051, 2177026350, 2456956037, 2730485921, 2820302411,
   3259730800, 3345764771, 3516065817, 3600352804, 4094571909, 275423344,
   430227734, 506948616, 659060556, 883997877, 958139571, 1322822218,
   1537002063, 1747873779, 1955562222, 2024104815, 2227730452, 2361852424,
   2428436474, 2756734187, 3204031479, 3329325298]

/-- big-endian bytes of a value, for a given byte count. -/
def beBytes : ℕ → ℕ → List ℕ
  | 0, _ => []
  | n + 1, v => (v >>> (8 * n)) % 256 :: beBytes n v

/-- SHA-256 padding of a byte message. -/
def sha256Pad (msg : List ℕ) : List ℕ :=
  let L := msg.length
  let zeros := (64 - ((L + 9) % 64)) % 64
  msg ++ [0x80] ++ List.replicate zeros 0 ++ beBytes 8 (8 * L)

def chunks64Go : ℕ → List ℕ → List (List ℕ)
  | 0, _ => []
  | _, [] => []
  | fu + 1, c :: l => ((c :: l).take 64) :: chunks64Go fu ((c :: l).drop 64)

/-- split a byte list into 64-byte blocks. -/
def chunks64 (l : List ℕ) : List (List ℕ) := chunks64Go l.length l

/-- 4 big-endian bytes to one 32-bit word. -/
def wordsOf : List ℕ → List ℕ
  | b0 :: b1 :: b2 :: b3 :: rest => (((b0 * 256 + b1) * 256 + b2) * 256 + b3) :: wordsOf rest
  | _ => []

def smallSigma0 (x : ℕ) : ℕ := xor3 (rotr32 7 x) (rotr32 18 x) (x >>> 3)

def smallSigma1 (x : ℕ) : ℕ := xor3 (rotr32 17 x) (rotr32 19 x) (x >>> 10)

def bigSigma0 (x : ℕ) : ℕ := xor3 (rotr32 2 x) (rotr32 13 x) (rotr32 22 x)

def bigSigma1 (x : ℕ) : ℕ := xor3 (rotr32 6 x) (rotr32 11 x) (rotr32 25 x)

def chFn (x y z : ℕ) : ℕ := Nat.xor (Nat.land x y) (Nat.land (pow32 - 1 - x) z)

def majFn (x y z : ℕ) : ℕ := xor3 (Nat.land x y) (Nat.land x z) (Nat.land y z)

/-- message-schedule extension; `acc` holds the words so far in reverse. -/
def schedExtend : ℕ → List ℕ → List ℕ
  | 0, acc => acc
  | n + 1, acc =>
    let w2 := acc.getD 1 0
    let w7 := acc.getD 6 0
    let w15 := acc.getD 14 0
    let w16 := acc.getD 15 0
    let nw := (smallSigma1 w2 + w7 + smallSigma0 w15 + w16) % pow32
    schedExtend n (nw :: acc)

def sched (block : List ℕ) : List ℕ := (schedExtend 48 block.reverse).reverse

structure Hash8 where
  a : ℕ
  b : ℕ
  c : ℕ
  d : ℕ
  e : ℕ
  f : ℕ
  g : ℕ
  h : ℕ
deriving DecidableEq

def compressStep (kw : ℕ × ℕ) (st : Hash8) : Hash8 :=
  let t1 := (st.h + bigSigma1 st.e + chFn st.e st.f st.g + kw.1 + kw.2) % pow32
  let t2 := (bigSigma0 st.a + majFn st.a st.b st.c) % pow32
  ⟨(t1 + t2) % pow32, st.a, st.b, st.c, (st.d + t1) % pow32, st.e, st.f, st.g⟩

def compressBlock (st : Hash8) (block : List ℕ) : Hash8 :=
  let w := sched block
  let fin := (sha256K.zip w).foldl (fun s kw => compressStep kw s) st
  ⟨(st.a + fin.a) % pow32, (st.b + fin.b) % pow32, (st.c + fin.c) % pow32,
   (st.d + fin.d) % pow32, (st.e + fin.e) % pow32, (st.f + fin.f) % pow32,
   (st.g + fin.g) % pow32, (st.h + fin.h) % pow32⟩

def sha256Words (msg : List ℕ) : Hash8 :=
  ((chunks64 (sha256Pad msg)).map wordsOf).foldl compressBlock
    ⟨1779033703, 3144134277, 1013904242, 2773480762, 1359893119, 2600822924, 528734635, 1541459225⟩

def hexChar (n : ℕ) : Char :=
  if n < 10 then Char.ofNat (48 + n) else Char.ofNat (87 + n)

def hexWord (w : ℕ) : List Char :=
  [hexChar ((w >>> 28) % 16), hexChar ((w >>> 24) % 16), hexChar ((w >>> 20) % 16),
   hexChar ((w >>> 16) % 16), hexChar ((w >>> 12) % 16), hexChar ((w >>> 8) % 16),
   hexChar ((w >>> 4) % 16), hexChar (w % 16)]

/-- `hashlib.sha256(payload).hexdigest()`. -/
def sha256Hex (msg : List ℕ) : List Char :=
  let h8 := sha256Words msg
  hexWord h8.a ++ hexWord h8.b ++ hexWord h8.c ++ hexWord h8.d ++
  hexWord h8.e ++ hexWord h8.f ++ hexWord h8.g ++ hexWord h8.h

/-- Python `str.encode("utf-8")`. -/
def utf8Encode (s : Str) : List ℕ :=
  s.flatMap (fun c =>
    let n := c.toNat
    if n < 0x80 then [n]
    else if n < 0x800 then [0xC0 + n / 64, 0x80 + n % 64]
    else if n < 0x10000 then [0xE0 + n / 4096, 0x80 + (n / 64) % 64, 0x80 + n % 64]
    else [0xF0 + n / 262144, 0x80 + (n / 4096) % 64, 0x80 + (n / 64) % 64, 0x80 + n % 64])

def hexVal (c : Char) : ℕ := if c.toNat ≥ 97 then c.toNat - 87 else c.toNat - 48

/-- Python `int(h, 16)` on a hex string. -/
def parseHex (l : List Char) : ℕ := l.foldl (fun acc c => acc * 16 + hexVal c) 0

/-- decimal digit as a character. -/
def digitChar (n : ℕ) : Char := Char.ofNat (48 + n)

def natDigitsRev : ℕ → ℕ → List Char
  | 0, _ => []
  | fu + 1, n => if n < 10 then [digitChar n] else digitChar (n % 10) :: natDigitsRev fu (n / 10)

/-- Python `str(n)` for a non-negative int. -/
def natToDigits (n : ℕ) : Str := (natDigitsRev (n + 1) n).reverse

/-- Python `round` rounds ties to the nearest even integer. -/
def roundHalfEven (q : ℚ) : ℤ :=
  let f := ⌊q⌋
  let r := q - f
  if r < 1/2 then f
  else if 1/2 < r then f + 1
  else if f % 2 = 0 then f else f + 1

/-- Python `f"{x:.2f}"` for the non-negative values formatted by the
turn-controller audit text. -/
def fmtQ2 (q : ℚ) : Str :=
  let c := (roundHalfEven (q * 100)).toNat
  natToDigits (c / 100) ++ ['.'] ++ [digitChar (c % 100 / 10), digitChar (c % 10)]

/-- The compliant fallback first message of
`SimulationEngine._enforce_single_question_first_turn`. -/
def default_first_turn_message : Str := "Hi — how can I help you?".toList

/-- Python `text.find("?")`: index of the first `'?'`, `none` for `-1`. -/
def findQ : Str → Option ℕ
  | [] => none
  | c :: rest => if c = '?' then some 0 else (findQ rest).map (· + 1)

/-- `SimulationEngine._enforce_single_question_first_turn`.  The `except`
branch of the source cannot fire on total data and returns the same
fallback message. -/
def enforce_single_question_first_turn (text : Str) : Str :=
  if text.isEmpty then default_first_turn_message
  else
    match findQ text with
    | none => default_first_turn_message
    | some qpos =>
      let trimmed := pyStrip (text.take (qpos + 1))
      if 500 < trimmed.length then default_first_turn_message else trimmed

/-- `SimulationEngine._enforce_single_question_all_turns` (the `except`
branch of the source returns `text` unchanged and cannot fire on total
data).  `text.find("?", qpos + 1) != -1` is the `findQ` of the tail past
the first question mark. -/
def enforce_single_question_all_turns (text : Str) : Str :=
  if text.isEmpty then text
  else
    match findQ text with
    | none => text
    | some qpos =>
      if (findQ (text.drop (qpos + 1))).isSome then pyStrip (text.take (qpos + 1))
      else text

/-- `ConversationAnalyzer._get_default_mandatory_fields`: the hardcoded
8-field fallback set, as `(analysis_key, field_label)` pairs in source
order. -/
def default_mandatory_fields : List (String × String) :=
  [("job_title", "Job Title"),
   ("workplace_type", "Workplace Type"),
   ("employment_type", "Employment Type"),
   ("location", "Location"),
   ("seniority_level", "Seniority Level"),
   ("skills", "Skills"),
   ("responsibilities", "Responsibilities"),
   ("salary_range", "Salary Range")]

/-- The capture test shared by `_update_fields_captured` and
`_build_turn_controller`: the mandatory field's label, lower-cased,
trailing colons removed, followed by `:`, occurs in the lower-cased SUT
reply. -/
def label_colon_occurs (label : String) (sut_reply : Str) : Bool :=
  containsSub (pyRStrip ':' (pyLower label.toList) ++ [':']) (pyLower sut_reply)

/-- `SimulationEngine._update_fields_captured`.  `raised` models whether
the `try` block raised (the `except` branch returns the input mapping
unchanged); the fields mapping is modelled as a total function from
analysis keys. -/
def update_fields_captured (mf : List (String × String)) (raised : Bool)
    (fields_captured : String → Bool) (sut_reply : Str) : String → Bool :=
  if raised then fields_captured
  else fun k =>
    fields_captured k ||
      mf.any (fun kv => decide (kv.1 = k) && label_colon_occurs kv.2 sut_reply)

/-- `_rand_01`'s hash payload `f"{seed_val}:{turn}:{kind}"`. -/
def randPayload (seed_val turn : ℕ) (kind : Str) : Str :=
  natToDigits seed_val ++ [':'] ++ natToDigits turn ++ [':'] ++ kind

/-- `_rand_01` before the final division: first 8 hex digits of the
SHA-256 digest as an integer, reduced mod `10_000_000`. -/
def rand_01_n (seed_val turn : ℕ) (kind : Str) : ℕ :=
  parseHex ((sha256Hex (utf8Encode (randPayload seed_val turn kind))).take 8) % 10000000

/-- `SimulationEngine._build_turn_controller._rand_01`: the reduced hash
value divided by `10_000_000` (built with `mkRat` so that it evaluates
inside the kernel). -/
def rand_01 (seed_val turn : ℕ) (kind : Str) : ℚ :=
  mkRat (rand_01_n seed_val turn kind) 10000000

/-- the numeral token `[0-9]*\.?[0-9]+` with Python's greedy backtracking:
all leading digits, plus a fractional part when a dot with at least one
digit follows. -/
def parseNumGroup (l : Str) : Option ℚ :=
  let ds1 := l.takeWhile Char.isDigit
  let intVal : ℕ := ds1.foldl (fun a c => 10 * a + (c.toNat - 48)) 0
  match l.drop ds1.length with
  | '.' :: r2 =>
    let ds2 := r2.takeWhile Char.isDigit
    if ds2.isEmpty then if ds1.isEmpty then none else some (intVal : ℚ)
    else
      some (mkRat ((intVal * 10 ^ ds2.length +
        ds2.foldl (fun a c => 10 * a + (c.toNat - 48)) 0 : ℕ) : ℤ) (10 ^ ds2.length))
  | _ => if ds1.isEmpty then none else some (intVal : ℚ)

/-- one attempt of `re.search(rf"{name}\s*:\s*([0-9]*\.?[0-9]+)", ...)` at
the current position. -/
def tryNumHere (name : Str) (l : Str) : Option ℚ :=
  if name.isPrefixOf l then
    match (l.drop name.length).dropWhile pyIsSpace with
    | ':' :: r2 => parseNumGroup (r2.dropWhile pyIsSpace)
    | _ => none
  else none

/-- `re.search` scanning: leftmost position where the whole pattern
matches. -/
def searchNum (name : Str) : Str → Option ℚ
  | [] => none
  | c :: rest =>
    match tryNumHere name (c :: rest) with
    | some v => some v
    | none => searchNum name rest

/-- `_build_turn_controller._extract_float`. -/
def extract_float (name : Str) (default : ℚ) (contract : Str) : ℚ :=
  (searchNum name contract).getD default

/-- the `field_just_captured` loop of `_build_turn_controller`: some
mandatory field's label (lower-cased, colons stripped) followed by `:`
occurs in the SUT reply. -/
def field_just_captured_check (mf : List (String × String)) (sut_reply : Str) : Bool :=
  mf.any (fun kv => label_colon_occurs kv.2 sut_reply)

/-- Python `str.join("\n", ...)`. -/
def joinNL : List Str → Str
  | [] => []
  | [l] => l
  | l :: l' :: ls => l ++ '\n' :: joinNL (l' :: ls)

/-- `SimulationEngine._build_turn_controller`.  Returns
`(controller_text, tangent_decision, clarifying_allowed)` exactly as the
source does. -/
def build_turn_controller (mf : List (String × String)) (turn_idx : ℕ) (sut_reply : Str)
    (fields_captured : String → Bool) (last_tangent_turn : ℤ) (tangent_cooldown_turns : ℕ)
    (contract : Str) (seed : ℕ) : Str × Bool × String :=
  let clar_prob := extract_float "clarifying_question_prob".toList 0.4 contract
  let tangent_prob := extract_float "tangent_prob_after_field".toList 0.2 contract
  let field_just_captured := field_just_captured_check mf sut_reply
  let clar_roll := rand_01 seed turn_idx "clarify".toList
  let clarifying_allowed : String := if clar_roll < clar_prob then "yes" else "no"
  let cooldown_remaining : ℤ := max 0 ((last_tangent_turn + tangent_cooldown_turns) - turn_idx)
  let tangent_gate := decide (cooldown_remaining ≤ 0) && field_just_captured
  let tangent_roll := if tangent_gate then rand_01 seed turn_idx "tangent".toList else 1
  let tangent_decision := tangent_gate && decide (tangent_roll < tangent_prob)
  let tangent_allowed : String := if tangent_decision then "yes" else "no"
  let lines : List Str :=
    ["TURN CONTROLLER:".toList,
     "- clarifying_allowed: ".toList ++ clarifying_allowed.toList ++ " (roll: ".toList ++
       fmtQ2 clar_roll ++ " < ".toList ++ fmtQ2 clar_prob ++ " if uncertainty phrase)".toList,
     "- tangent_allowed: ".toList ++ tangent_allowed.toList ++ " (roll: ".toList ++
       fmtQ2 tangent_roll ++ " < ".toList ++ fmtQ2 tangent_prob ++ "; cooldown: ".toList ++
       natToDigits cooldown_remaining.toNat ++ "; field_just_captured: ".toList ++
       (if field_just_captured then "true".toList else "false".toList) ++ [')'],
     "- on_summary: confirm succinctly with approved closure phrasing".toList,
     "- resume_policy: after any tangent, answer the recruiter's last question directly".toList,
     "- deterministic_mode: binding decisions enforced".toList]
  (joinNL lines, tangent_decision, clarifying_allowed)

/-- `SimulationEngine._detect_tangent`. -/
def detect_tangent (proxy_reply : Str) : Bool :=
  if proxy_reply.isEmpty then false
  else
    containsSub "anyway".toList (pyLower proxy_reply) ||
    containsSub "side note".toList (pyLower proxy_reply) ||
    containsSub "btw".toList (pyLower proxy_reply)

/-! ### A small backtracking regex engine

Models the `re.findall` / `re.search` calls of
`conversation_analyzer.py`.  `lengthsF` enumerates the lengths of the
prefixes of a string matched by a pattern, in Python's backtracking
priority order (alternation: left first; `*`, `+`, `?`: greedy, longer
first).  Every starred subpattern appearing in the source is a character
class, which can never match empty, so the `0 < l` guard used to bound
the `star` unfolding by fuel does not change the semantics. -/

inductive RE
  | eps
  | cls (p : Char → Bool)
  | seq (a b : RE)
  | alt (a b : RE)
  | star (a : RE)

/-- one level of `lengthsF`, structurally recursive on the pattern;
`next` handles the recursive `star` unfolding at the next fuel level. -/
def lengthsGo (next : RE → Str → List ℕ) : RE → Str → List ℕ
  | .eps, _ => [0]
  | .cls _, [] => []
  | .cls p, c :: _ => if p c then [1] else []
  | .alt a b, s => lengthsGo next a s ++ lengthsGo next b s
  | .seq a b, s =>
    (lengthsGo next a s).flatMap fun l1 => (lengthsGo next b (s.drop l1)).map (l1 + ·)
  | .star a, s =>
    ((lengthsGo next a s).filter (0 < ·)).flatMap
      (fun l1 => (next (.star a) (s.drop l1)).map (l1 + ·)) ++ [0]

def lengthsF : ℕ → RE → Str → List ℕ
  | 0, re, s => lengthsGo (fun _ _ => [0]) re s
  | fu + 1, re, s => lengthsGo (lengthsF fu) re s

/-- lengths matched by `re` as a prefix of `s`, in backtracking priority
order. -/
def lengths (re : RE) (s : Str) : List ℕ := lengthsF (s.length + 1) re s

/-- first match of `pre ++ (grp)` at the current position:
`(pre length, group length)` in backtracking priority order. -/
def firstMatchHere (pre grp : RE) (s : Str) : Option (ℕ × ℕ) :=
  (lengths pre s).findSome? fun l1 =>
    ((lengths grp (s.drop l1)).head?).map fun l2 => (l1, l2)

/-- `re.findall` for a pattern split as `pre(grp)`: scan left to right,
collect the group captures of non-overlapping leftmost matches.  For a
pattern with no capturing group, use `pre = .eps` and the whole pattern
as `grp`, which yields the full match texts as `re.findall` does. -/
def findAllGo : ℕ → RE → RE → Str → List Str
  | 0, _, _, _ => []
  | fu + 1, pre, grp, s =>
    match firstMatchHere pre grp s with
    | some (l1, l2) =>
      ((s.drop l1).take l2) ::
        (if l1 + l2 = 0 then
          match s with
          | [] => []
          | _ :: t => findAllGo fu pre grp t
        else findAllGo fu pre grp (s.drop (l1 + l2)))
    | none =>
      match s with
      | [] => []
      | _ :: t => findAllGo fu pre grp t

def reFindall (pre grp : RE) (s : Str) : List Str := findAllGo (s.length + 1) pre grp s

def searchGo : ℕ → RE → Str → Option Str
  | 0, _, _ => none
  | fu + 1, re, s =>
    match (lengths re s).head? with
    | some l => some (s.take l)
    | none =>
      match s with
      | [] => none
      | _ :: t => searchGo fu re t

/-- `re.search(...).group()`: text of the leftmost match. -/
def reSearch (re : RE) (s : Str) : Option Str := searchGo (s.length + 1) re s

/-- a literal pattern character under `re.IGNORECASE` (all literal
characters in the source patterns are lower-case). -/
def chrCI (c : Char) : RE := .cls (fun x => x.toLower = c)

def strRE (lit : Str) : RE := lit.foldr (fun c r => .seq (chrCI c) r) .eps

def altList : List RE → RE
  | [] => .cls (fun _ => false)
  | [r] => r
  | r :: r' :: rs => .alt r (altList (r' :: rs))

/-- `(?:lit1|lit2|...)`. -/
def litAlt (lits : List String) : RE := altList (lits.map (fun l => strRE l.toList))

/-- `x+`. -/
def rePlus (r : RE) : RE := .seq r (.star r)

/-- greedy `x?`. -/
def reOpt (r : RE) : RE := .alt r .eps

/-- `\s`. -/
def wsRE : RE := .cls pyIsSpace

/-- `[:\s]`. -/
def colonWsRE : RE := .cls (fun c => c = ':' || pyIsSpace c)

/-- `[^...]` for a list of excluded characters. -/
def notCls (bad : List Char) : RE := .cls (fun c => !(bad.contains c))

/-- `[^.!?\n]+`, the generic free-text capture group. -/
def freeText : RE := rePlus (notCls ['.', '!', '?', '\n'])

/-! ### `ConversationAnalyzer` field extractors

Each `_extract_*` method's regex list is transcribed pattern by pattern;
patterns with one capturing group are split as `pre(grp)`, patterns with
no capturing group use `pre = .eps` so `reFindall` returns full matches,
as `re.findall` does. -/

/-- `_extract_job_title`'s role-noun suffix alternation (the duplicated
`coordinator` of the source list is kept). -/
def jobNounSuffixes : List String :=
  ["developer", "engineer", "manager", "analyst", "specialist", "coordinator", "director",
   "lead", "architect", "consultant", "designer", "marketer", "sales", "accountant", "lawyer",
   "doctor", "nurse", "teacher", "writer", "editor", "administrator", "executive", "officer",
   "representative", "assistant", "clerk", "technician", "operator", "supervisor", "coordinator"]

/-- the three `job_title_patterns`, split as `(pre, group)`. -/
def jobTitlePatterns : List (RE × RE) :=
  [(.seq (litAlt ["job title", "position", "role", "hiring for", "looking for", "need a", "want a"])
      (.seq (.star wsRE) (.seq (reOpt (chrCI ':')) (.star wsRE))),
    freeText),
   (.seq (litAlt ["is", "are", "would be", "should be"])
      (.seq (rePlus wsRE) (reOpt (.seq (chrCI 'a') (rePlus wsRE)))),
    .seq freeText (litAlt jobNounSuffixes)),
   (.seq (litAlt ["we need", "looking for", "hiring"])
      (.seq (rePlus wsRE) (reOpt (.seq (chrCI 'a') (rePlus wsRE)))),
    .seq freeText (litAlt jobNounSuffixes))]

/-- `ConversationAnalyzer._extract_job_title`. -/
def extract_job_title (conversation conversation_lower : Str) : Option Str :=
  jobTitlePatterns.findSome? fun pat =>
    (reFindall pat.1 pat.2 conversation_lower).findSome? fun m =>
      let title := pyStrip m
      if 3 < title.length && title.length < 50 then some (pyTitle title) else none

/-- the city-name gazetteer of `location_patterns` (verbatim, duplicates
included). -/
def cityGazetteer : List String :=
  ["san francisco", "sf", "new york", "ny", "los angeles", "la", "chicago", "boston", "seattle",
   "austin", "denver", "miami", "atlanta", "phoenix", "dallas", "houston", "philadelphia",
   "detroit", "minneapolis", "portland", "las vegas", "orlando", "tampa", "nashville",
   "pittsburgh", "cleveland", "columbus", "indianapolis", "milwaukee", "kansas city",
   "salt lake city", "richmond", "norfolk", "greensboro", "raleigh", "charlotte", "jacksonville",
   "memphis", "louisville", "birmingham", "oklahoma city", "tulsa", "wichita", "omaha",
   "des moines", "cedar rapids", "davenport", "rockford", "peoria", "springfield", "madison",
   "rochester", "buffalo", "syracuse", "albany", "utica", "binghamton", "poughkeepsie", "newburgh",
   "kingston", "glens falls", "watertown", "ogdensburg", "massena", "plattsburgh", "burlington",
   "rutland", "barre", "montpelier", "concord", "nashua", "manchester", "portsmouth", "dover",
   "rochester", "concord", "laconia", "berlin", "claremont", "lebanon", "keene", "dover",
   "portsmouth", "exeter", "hampton", "salem", "derry", "hudson", "londonderry", "merrimack",
   "bedford", "goffstown", "weare", "new boston", "lyndeborough", "mont vernon", "amherst",
   "milford", "wilton", "mason", "greenville", "new ipswich", "jaffrey", "peterborough", "temple",
   "sharon", "dublin", "hancock", "antrim", "bennington", "francestown", "greenfield",
   "lyndeborough", "mont vernon", "new boston", "wilton", "mason", "greenville", "new ipswich",
   "jaffrey", "peterborough", "temple", "sharon", "dublin", "hancock", "antrim", "bennington",
   "francestown", "greenfield"]

/-- the three `location_patterns`, split as `(pre, group)`; the second
and third have no capturing group. -/
def locationPatterns : List (RE × RE) :=
  [(.seq (litAlt ["in", "at", "based in", "located in", "working in"]) (rePlus wsRE),
    .seq (rePlus (notCls ['.', '!', '?', '\n', ',']))
      (litAlt ["city", "town", "state", "country", "remote", "hybrid", "onsite"])),
   (.eps, litAlt ["remote", "hybrid", "onsite", "on-site"]),
   (.eps, litAlt cityGazetteer)]

/-- `ConversationAnalyzer._extract_location`. -/
def extract_location (conversation conversation_lower : Str) : Option Str :=
  locationPatterns.findSome? fun pat =>
    (reFindall pat.1 pat.2 conversation_lower).findSome? fun m =>
      let location := pyStrip m
      if !location.isEmpty && location.length < 50 then some (pyTitle location) else none

/-- `ConversationAnalyzer._extract_employment_type`. -/
def extract_employment_type (conversation conversation_lower : Str) : Option Str :=
  if containsSub "full-time".toList conversation_lower ||
      containsSub "fulltime".toList conversation_lower then some "Full-time".toList
  else if containsSub "part-time".toList conversation_lower ||
      containsSub "parttime".toList conversation_lower then some "Part-time".toList
  else if containsSub "contract".toList conversation_lower then some "Contract".toList
  else if containsSub "intern".toList conversation_lower ||
      containsSub "internship".toList conversation_lower then some "Internship".toList
  else none

/-- `ConversationAnalyzer._extract_workplace_type`. -/
def extract_workplace_type (conversation conversation_lower : Str) : Option Str :=
  if containsSub "remote".toList conversation_lower then some "Remote".toList
  else if containsSub "hybrid".toList conversation_lower then some "Hybrid".toList
  else if containsSub "onsite".toList conversation_lower ||
      containsSub "on-site".toList conversation_lower then some "Onsite".toList
  else none

/-- the five `seniority_patterns` (no capturing groups; `re.search`). -/
def seniorityPatterns : List RE :=
  [litAlt ["junior", "entry-level", "entry level", "associate", "assistant"],
   litAlt ["mid-level", "mid level", "intermediate", "middle"],
   litAlt ["senior", "sr.", "sr"],
   litAlt ["lead", "principal", "staff", "architect"],
   litAlt ["director", "vp", "vice president", "executive", "chief"]]

/-- `ConversationAnalyzer._extract_seniority_level`. -/
def extract_seniority_level (conversation conversation_lower : Str) : Option Str :=
  seniorityPatterns.findSome? fun pat =>
    (reSearch pat conversation_lower).map pyTitle

/-- the two `skills_patterns`, split as `(pre, group)`. -/
def skillsPatterns : List (RE × RE) :=
  [(.seq (litAlt ["skills", "technologies", "tools", "requirements", "must have",
        "nice to have"]) (rePlus colonWsRE), freeText),
   (.seq (litAlt ["experience with", "knowledge of", "proficient in", "familiar with"])
      (rePlus colonWsRE), freeText)]

/-- `ConversationAnalyzer._extract_skills_text`. -/
def extract_skills_text (conversation conversation_lower : Str) : Option Str :=
  skillsPatterns.findSome? fun pat =>
    (reFindall pat.1 pat.2 conversation_lower).findSome? fun m =>
      let skills_text := pyStrip m
      if 5 < skills_text.length then some skills_text else none

/-- `[\d,]`. -/
def digitComma : RE := .cls (fun c => c.isDigit || c = ',')

/-- the three `salary_patterns`; the first has no capturing group and is
matched against the original-case conversation. -/
def salaryPatterns : List (RE × RE) :=
  [(.eps, .seq (chrCI '$') (.seq (rePlus digitComma)
      (reOpt (.seq (chrCI '-') (.seq (chrCI '$') (rePlus digitComma)))))),
   (.seq (litAlt ["salary", "pay", "compensation"]) (rePlus colonWsRE), freeText),
   (.seq (litAlt ["budget", "range"]) (rePlus colonWsRE), freeText)]

/-- `ConversationAnalyzer._extract_salary_range` (runs on the original
conversation text with `re.IGNORECASE`). -/
def extract_salary_range (conversation conversation_lower : Str) : Option Str :=
  salaryPatterns.findSome? fun pat =>
    (reFindall pat.1 pat.2 conversation).findSome? fun m =>
      if containsSub ['$'] m || containsSub "salary".toList (pyLower m) then
        some (pyStrip m)
      else none

/-- the two `resp_patterns`, split as `(pre, group)`. -/
def respPatterns : List (RE × RE) :=
  [(.seq (litAlt ["responsibilities", "duties", "tasks", "what they will do",
        "role involves"]) (rePlus colonWsRE), freeText),
   (.seq (litAlt ["will be responsible for", "will handle", "will manage"])
      (rePlus colonWsRE), freeText)]

/-- `ConversationAnalyzer._extract_responsibilities`. -/
def extract_responsibilities (conversation conversation_lower : Str) : Option Str :=
  respPatterns.findSome? fun pat =>
    (reFindall pat.1 pat.2 conversation_lower).findSome? fun m =>
      let responsibilities := pyStrip m
      if 10 < responsibilities.length then some responsibilities else none

/-- `ConversationAnalyzer._extract_generic_field`. -/
def extract_generic_field (field_name : String) (conversation conversation_lower : Str) :
    Option Str :=
  let field_lower := pyLower field_name.toList
  let patterns : List (RE × RE) :=
    [(.seq (strRE field_lower) (rePlus colonWsRE), freeText),
     (.seq (strRE field_lower) (.seq (rePlus wsRE) (.seq (strRE "is".toList) (rePlus wsRE))),
      freeText),
     (.seq (strRE field_lower)
        (.seq (rePlus wsRE) (.seq (strRE "will be".toList) (rePlus wsRE))), freeText)]
  patterns.findSome? fun pat =>
    (reFindall pat.1 pat.2 conversation_lower).findSome? fun m =>
      let value := pyStrip m
      if 2 < value.length then some value else none

/-- `ConversationAnalyzer._extract_field_value` (dispatch on the analysis
key). -/
def extract_field_value (field_key field_name : String) (conversation conversation_lower : Str) :
    Option Str :=
  if field_key = "job_title" then extract_job_title conversation conversation_lower
  else if field_key = "location" then extract_location conversation conversation_lower
  else if field_key = "employment_type" then
    extract_employment_type conversation conversation_lower
  else if field_key = "workplace_type" then
    extract_workplace_type conversation conversation_lower
  else if field_key = "seniority_level" then
    extract_seniority_level conversation conversation_lower
  else if field_key = "skills" then extract_skills_text conversation conversation_lower
  else if field_key = "salary_range" then extract_salary_range conversation conversation_lower
  else if field_key = "responsibilities" then
    extract_responsibilities conversation conversation_lower
  else extract_generic_field field_name conversation conversation_lower

/-- `ConversationAnalyzer._extract_all_fields`, keeping each mandatory
field entry next to its extracted value. -/
def extract_all_fields (mf : List (String × String)) (conversation : Str) :
    List ((String × String) × Option Str) :=
  mf.map fun kv => (kv, extract_field_value kv.1 kv.2 conversation (pyLower conversation))

/-- `analysis.models.FailureCategory`. -/
inductive FailureCategory
  | TIMEOUT
  | API_ERROR
  | PERSONA_DRIFT
  | SUT_ERROR
  | PROXY_ERROR
  | PROTOCOL_VIOLATION
  | INCOMPLETE_INFORMATION
  | USER_ABANDONMENT
  | SYSTEM_ERROR
  | VALIDATION_ERROR
deriving DecidableEq

/-- `analysis.models.ConversationStatus`. -/
inductive ConversationStatus
  | COMPLETED_SUCCESSFULLY
  | SUMMARY_PROVIDED_AWAITING_CONFIRMATION
  | INCOMPLETE
  | FAILED
  | TIMEOUT
  | ERROR
deriving DecidableEq

/-- values stored in a `FailureDetail.context` mapping. -/
inductive CtxVal
  | n (v : ℕ)
  | q (v : ℚ)
  | s (v : Str)
  | strs (v : List Str)
deriving DecidableEq

/-- `analysis.models.FailureDetail`. -/
structure FailureDetail where
  category : FailureCategory
  reason : Str
  error_message : Option Str := none
  turn_occurred : Option ℕ := none
  context : Option (List (String × CtxVal)) := none
deriving DecidableEq

/-- `analysis.models.ConversationOutcome`. -/
structure ConversationOutcome where
  status : ConversationStatus
  completion_level : ℕ
  success_indicators : List Str
  issues : List Str
  failures : List FailureDetail
  total_failures : ℕ
deriving DecidableEq

/-- a conversation turn as the analyzer sees it (`role`, `content`). -/
structure Turn where
  role : String
  content : Str
deriving DecidableEq

/-- `ConversationAnalyzer.role_adherence_phrases`. -/
def role_adherence_phrases : List Str := ["sorry, i'm the one who needs help".toList]

/-- `ConversationAnalyzer.persona_characteristics`. -/
def persona_characteristics : List Str :=
  ["drowning in work".toList, "systems are getting hammered".toList]

/-- the role-reversal phrase list of `_analyze_persona_adherence`. -/
def recruiter_phrases : List Str :=
  ["i can help you with".toList, "let me ask you about".toList, "what's your budget".toList,
   "i'll need to know".toList, "let me gather".toList, "i'm here to help you find".toList]

/-- the character-break phrase list of `_analyze_persona_adherence`. -/
def breaking_character_phrases : List Str :=
  ["i'm an ai".toList, "as an ai".toList, "i'm a language model".toList, "i'm not real".toList,
   "this is a simulation".toList, "i'm programmed".toList]

/-- `ConversationAnalyzer._analyze_persona_adherence`. -/
def analyze_persona_adherence (turns : List Turn) : List FailureDetail :=
  turns.enum.flatMap fun it =>
    let turn_idx := it.1
    let turn := it.2
    if turn.role = "user" then
      let content := pyLower turn.content
      (if recruiter_phrases.any (fun p => containsSub p content) then
        [{ category := .PERSONA_DRIFT,
           reason := "Proxy user acting like recruiter instead of hiring manager".toList,
           turn_occurred := some (turn_idx + 1),
           context := some [("violating_phrases",
             .strs (recruiter_phrases.filter (fun p => containsSub p content)))] }]
       else []) ++
      (if breaking_character_phrases.any (fun p => containsSub p content) then
        [{ category := .PERSONA_DRIFT,
           reason := "Proxy broke character and revealed AI nature".toList,
           turn_occurred := some (turn_idx + 1),
           context := some [("breaking_phrases",
             .strs (breaking_character_phrases.filter (fun p => containsSub p content)))] }]
       else [])
    else if turn.role = "system" then
      let content := pyLower turn.content
      let question_count := content.count '?'
      (if 1 < question_count then
        [{ category := .PROTOCOL_VIOLATION,
           reason := "SUT asked ".toList ++ natToDigits question_count ++
             " questions in one turn (should be 1)".toList,
           turn_occurred := some (turn_idx + 1),
           context := some [("question_count", .n question_count)] }]
       else []) ++
      (if containsSub "i don't know".toList content ||
          containsSub "i can't help".toList content then
        [{ category := .SUT_ERROR,
           reason := "SUT expressed inability to help (should maintain recruiter role)".toList,
           turn_occurred := some (turn_idx + 1) }]
       else [])
    else []

/-- Python truthiness of an optional extracted value: `None` and the
empty string are falsy. -/
def nullish : Option Str → Bool
  | none => true
  | some s => s.isEmpty

/-- the `missing_fields` list of `_analyze_information_completeness`
(field labels of the entries whose extracted value is falsy). -/
def missing_field_names (vals : List ((String × String) × Option Str)) : List Str :=
  (vals.filter fun e => nullish e.2).map (fun e => e.1.2.toList)

/-- the `gathered_fields` context entry (analysis keys of the truthy
values). -/
def gathered_field_keys (vals : List ((String × String) × Option Str)) : List Str :=
  (vals.filter fun e => !nullish e.2).map (fun e => e.1.1.toList)

/-- the `> 50% missing` rule of `_analyze_information_completeness`,
applied to the extracted values (`len(missing) > len(mf) * 0.5` is exact
in floating point and equivalent to `2 * missing > len(mf)`). -/
def completeness_failures (vals : List ((String × String) × Option Str)) : List FailureDetail :=
  let missing := missing_field_names vals
  if vals.length < 2 * missing.length then
    [{ category := .INCOMPLETE_INFORMATION,
       reason := "Missing ".toList ++ natToDigits missing.length ++ " out of ".toList ++
         natToDigits vals.length ++ " mandatory fields".toList,
       context := some [("missing_fields", .strs missing),
         ("gathered_fields", .strs (gathered_field_keys vals)),
         ("completion_percentage", .q (mkRat ((vals.length - missing.length) * 100) vals.length))] }]
  else []

/-- Python `" ".join(...)`. -/
def joinSpace : List Str → Str
  | [] => []
  | [x] => x
  | x :: y :: r => x ++ ' ' :: joinSpace (y :: r)

/-- `ConversationAnalyzer._analyze_information_completeness`. -/
def analyze_information_completeness (mf : List (String × String)) (turns : List Turn) :
    List FailureDetail :=
  completeness_failures (extract_all_fields mf (joinSpace (turns.map (fun t => t.content)))) ++
  (if turns.length < 4 then
    [{ category := .USER_ABANDONMENT,
       reason := "Conversation ended prematurely with only ".toList ++
         natToDigits turns.length ++ " turns".toList,
       context := some [("total_turns", .n turns.length)] }]
   else [])

/-- the substring sniffing of the API-error loop in
`determine_conversation_outcome`. -/
def classify_api_error (e : Str) : FailureCategory :=
  if containsSub "sut".toList (pyLower e) then .SUT_ERROR
  else if containsSub "proxy".toList (pyLower e) then .PROXY_ERROR
  else .API_ERROR

/-- one `FailureDetail` per `api_errors` entry, with its enumerate
index. -/
def api_error_failure (i : ℕ) (e : Str) : FailureDetail :=
  { category := classify_api_error e,
    reason := "API request failed during conversation".toList,
    error_message := some e,
    context := some [("error_index", .n i)] }

/-- `ConversationAnalyzer.determine_conversation_outcome`.  The source
mutates one outcome object; here each field is assembled in the same
order the mutations happen. -/
def determine_conversation_outcome (mf : List (String × String)) (turns : List Turn)
    (sut_provided_summary proxy_confirmed timeout_reached : Bool) (api_errors : List Str)
    (elapsed_time : ℚ) (timeout_limit : ℕ) : ConversationOutcome :=
  let timeout_failures : List FailureDetail :=
    if timeout_reached then
      [{ category := .TIMEOUT,
         reason := "Conversation exceeded ".toList ++ natToDigits timeout_limit ++
           "s time limit".toList,
         context := some [("elapsed_time", .q elapsed_time),
           ("timeout_limit", .n timeout_limit), ("turns_completed", .n turns.length)] }]
    else []
  let api_failures := api_errors.enum.map fun ie => api_error_failure ie.1 ie.2
  let persona_failures := analyze_persona_adherence turns
  let info_failures := analyze_information_completeness mf turns
  let success_path := !timeout_reached && api_errors.isEmpty
  let status : ConversationStatus :=
    if success_path then
      if sut_provided_summary && proxy_confirmed then .COMPLETED_SUCCESSFULLY
      else if sut_provided_summary then .SUMMARY_PROVIDED_AWAITING_CONFIRMATION
      else .INCOMPLETE
    else if timeout_reached then .TIMEOUT
    else .ERROR
  let completion_level : ℕ :=
    if success_path then
      if sut_provided_summary && proxy_confirmed then 100
      else if sut_provided_summary then 80
      else 50
    else if timeout_reached then 25
    else 10
  let success_failures : List FailureDetail :=
    if success_path then
      if sut_provided_summary && proxy_confirmed then []
      else if sut_provided_summary then
        [{ category := .USER_ABANDONMENT,
           reason := "User did not confirm the provided summary".toList }]
      else
        [{ category := .INCOMPLETE_INFORMATION,
           reason := "SUT did not provide a role summary".toList }]
    else []
  let branch_indicators : List Str :=
    if success_path then
      if sut_provided_summary && proxy_confirmed then
        ["role_summary_provided".toList, "user_confirmed_summary".toList]
      else if sut_provided_summary then ["role_summary_provided".toList]
      else []
    else []
  let issues : List Str :=
    (if timeout_reached then ["conversation_timeout".toList] else []) ++
    (if !api_errors.isEmpty && !timeout_reached then ["api_errors_occurred".toList] else []) ++
    (if success_path then
      if sut_provided_summary && proxy_confirmed then []
      else if sut_provided_summary then ["user_did_not_confirm".toList]
      else ["no_role_summary_provided".toList]
     else [])
  let role_play_indicators : List Str :=
    turns.flatMap fun turn =>
      if turn.role = "user" then
        let content := pyLower turn.content
        (if role_adherence_phrases.any (fun p => containsSub p content) then
          ["role_adherence_maintained".toList] else []) ++
        (if persona_characteristics.any (fun p => containsSub p content) then
          ["persona_characteristics_expressed".toList] else [])
      else []
  let failures := timeout_failures ++ api_failures ++ persona_failures ++ info_failures ++
    success_failures
  { status := status,
    completion_level := completion_level,
    success_indicators := branch_indicators ++ role_play_indicators,
    issues := issues,
    failures := failures,
    total_failures := failures.length }

/-- Persona behavior-dial configuration read by
`_compute_runtime_dials`: each `_val_or_default` path is an optional
numeric value (any non-numeric or missing entry becomes the default). -/
structure Persona where
  question_when_uncertain : Option ℚ
  question_when_budget : Option ℚ
  tangent_after_field_capture : Option ℚ
  elaboration_two_sentences : Option ℚ
  hesitation_patterns : List Str

/-- `scenario["pressure_index"]`: three optional axis levels; any string
other than high/medium/low maps to the medium value. -/
structure PressureIndex where
  timeline : Option String
  quality : Option String
  budget : Option String

/-- the scenario fields `_compute_runtime_dials` reads; `pressure_index =
none` models a non-dict `pressure_index` entry. -/
structure Scenario where
  pressure_index : Option PressureIndex

/-- `level_to_num.get(str(...).lower(), 0.7)` with the unset axis
defaulting to `"medium"`. -/
def level_to_num (level : Option String) : ℚ :=
  let s := (level.getD "medium").toLower
  if s = "high" then 1 else if s = "medium" then 0.7 else if s = "low" then 0.4 else 0.7

/-- `_compute_runtime_dials.clamp01`. -/
def clamp01 (x : ℚ) : ℚ := max 0 (min 1 x)

/-- Python `round(x, 3)`. -/
def round3 (x : ℚ) : ℚ := (roundHalfEven (x * 1000) : ℚ) / 1000

/-- the dials mapping computed once per run. -/
structure Dials where
  clarifying_question_prob : ℚ
  tangent_prob_after_field : ℚ
  hesitation_insert_prob : ℚ

/-- `SimulationEngine._compute_runtime_dials`; `entropy` stands for the
uuid-derived 32-bit value drawn for the seed. -/
def compute_runtime_dials (persona : Persona) (scenario : Scenario) (entropy : ℕ) :
    Dials × ℕ :=
  let pa : ℚ × ℚ :=
    match scenario.pressure_index with
    | some pi =>
      ((level_to_num pi.timeline + level_to_num pi.quality + level_to_num pi.budget) / 3,
       level_to_num pi.budget)
    | none => (0.7, 0.7)
  let pressure_avg := pa.1
  let budget_factor := pa.2
  let question_uncertain := persona.question_when_uncertain.getD 0.6
  let tangent_after_field := persona.tangent_after_field_capture.getD 0.3
  let elaboration_two := persona.elaboration_two_sentences.getD 0.25
  let clarifying_prob := clamp01 (question_uncertain * pressure_avg * 1)
  let clarifying_prob2 := clamp01 (clarifying_prob * (0.9 + 0.2 * budget_factor))
  let tangent_prob := clamp01 (tangent_after_field * min 1 pressure_avg)
  let hesitation_prob := clamp01 elaboration_two
  (⟨round3 clarifying_prob2, round3 tangent_prob, round3 hesitation_prob⟩, entropy)

/-- Python `", ".join(...)`. -/
def joinCommaSpace : List Str → Str
  | [] => []
  | [x] => x
  | x :: y :: r => x ++ ',' :: ' ' :: joinCommaSpace (y :: r)

/-- the `patterns_str` of `_build_interaction_contract`. -/
def hesitation_patterns_str (persona : Persona) : Str :=
  if persona.hesitation_patterns.isEmpty then "Hmm…, Honestly…, Let me think…".toList
  else joinCommaSpace persona.hesitation_patterns

/-- Python `str(x)` (an f-string `{x}` field) for the values stored in
the dials mapping, which are always `round(_, 3)` results `k/1000` with
`0 ≤ k ≤ 1000`: the shortest decimal — integer part, dot, fractional
digits with trailing zeros stripped, at least one digit kept. -/
def fmtDial (q : ℚ) : Str :=
  let k := (⌊q * 1000⌋).toNat
  if 1000 ≤ k then '1' :: '.' :: ['0']
  else
    '0' :: '.' ::
      (if k % 100 = 0 then [digitChar (k / 100)]
       else if k % 10 = 0 then [digitChar (k / 100), digitChar (k / 10 % 10)]
       else [digitChar (k / 100), digitChar (k / 10 % 10), digitChar (k % 10)])

/-- `SimulationEngine._build_interaction_contract`. -/
def build_interaction_contract (persona : Persona) (scenario : Scenario) (dials : Dials)
    (seed : ℕ) : Str :=
  joinNL
    ["INTERACTION CONTRACT (engine-controlled):".toList,
     "PRIORITIES:".toList,
     "1) mandatory_fields (answer recruiter; provide the requested field)".toList,
     "2) consultative_questions (only after fields are provided)".toList,
     "3) tangent_handling (micro-detours max 1 every 3–4 turns; resume last question)".toList,
     "4) closure_policy (when recruiter summarizes, confirm succinctly)".toList,
     "BEHAVIOR DIALS:".toList,
     "- clarifying_question_prob: ".toList ++ fmtDial dials.clarifying_question_prob,
     "- tangent_prob_after_field: ".toList ++ fmtDial dials.tangent_prob_after_field,
     "- hesitation_insert_prob: ".toList ++ fmtDial dials.hesitation_insert_prob,
     "- randomness_seed: ".toList ++ natToDigits seed,
     "HESITATION PATTERNS: ".toList ++ hesitation_patterns_str persona]

/-- The per-turn data of one orchestrator iteration that C2 talks about:
the 0-based turn index, the (post-enforcement) SUT reply handed to the
controller, and the controller's two decisions. -/
structure TurnRec where
  turn : ℕ
  sutReply : Str
  tangentDecision : Bool
  clarifyingAllowed : String
deriving DecidableEq

/-- Per-run constants of the orchestrator loop: the analyzer's mandatory
fields, `scenario["interaction_contract"]` and `scenario["rng_seed"]`. -/
structure RunParams where
  mf : List (String × String)
  contract : Str
  seed : ℕ

/-- The turn loop of `run_simulation` restricted to the state that feeds
the turn controller (`fields_captured`, `last_tangent_turn`), with
`use_controller` enabled and `tangent_cooldown_turns = 3` as in the
source.  Each input pair is the SUT and proxy reply of one iteration;
earlier exits (timeout check, API errors) simply truncate the input list.
The success break happens before `last_tangent_turn` is updated, exactly
as in the source. -/
def run_turns (P : RunParams) (fields_captured : String → Bool) (last_tangent_turn : ℤ)
    (turn_idx : ℕ) : List (Str × Str) → List TurnRec
  | [] => []
  | (sut_reply, proxy_reply) :: rest =>
    let fc' := update_fields_captured P.mf false fields_captured sut_reply
    let ctrl := build_turn_controller P.mf turn_idx sut_reply fc' last_tangent_turn 3
      P.contract P.seed
    let record : TurnRec := ⟨turn_idx, sut_reply, ctrl.2.1, ctrl.2.2⟩
    if check_sut_provided_summary sut_reply && check_proxy_confirmation proxy_reply then
      [record]
    else
      let ltt' := if ctrl.2.1 || detect_tangent proxy_reply then (turn_idx : ℤ)
        else last_tangent_turn
      record :: run_turns P fc' ltt' (turn_idx + 1) rest

/-- The tangent gate of `_build_turn_controller`: cooldown elapsed and a
field just captured. -/
def tangent_gate (mf : List (String × String)) (sut_reply : Str) (last_tangent_turn : ℤ)
    (tangent_cooldown_turns : ℕ) (turn_idx : ℕ) : Bool :=
  decide ((max 0 ((last_tangent_turn + tangent_cooldown_turns) - turn_idx) : ℤ) ≤ 0) &&
    field_just_captured_check mf sut_reply

/-- The tangent decision of `_build_turn_controller` as a standalone
function (definitionally the second component of the result). -/
def tangent_decision_fn (mf : List (String × String)) (sut_reply : Str)
    (last_tangent_turn : ℤ) (tangent_cooldown_turns : ℕ) (turn_idx : ℕ)
    (contract : Str) (seed : ℕ) : Bool :=
  tangent_gate mf sut_reply last_tangent_turn tangent_cooldown_turns turn_idx &&
    decide ((if tangent_gate mf sut_reply last_tangent_turn tangent_cooldown_turns turn_idx
        then rand_01 seed turn_idx "tangent".toList else 1) <
      extract_float "tangent_prob_after_field".toList 0.2 contract)

/-- Concrete run for the C2 witness: seed 5, a contract that pins
`tangent_prob_after_field` to 1.0, and four identical turns whose SUT
reply contains the label `Job Title:`. -/
def c2WitnessParams : RunParams :=
  ⟨default_mandatory_fields,
   "tangent_prob_after_field: 1.0\nclarifying_question_prob: 0.4".toList, 5⟩

def c2WitnessInputs : List (Str × Str) :=
  List.replicate 4 ("Job Title: x".toList, "ok".toList)

/-- The 8 default fields with exactly 5 null extractions. -/
def c5ValsFiveNull : List ((String × String) × Option Str) :=
  [(("job_title", "Job Title"), some "Engineer".toList),
   (("workplace_type", "Workplace Type"), some "Remote".toList),
   (("employment_type", "Employment Type"), some "Full-time".toList),
   (("location", "Location"), none),
   (("seniority_level", "Seniority Level"), none),
   (("skills", "Skills"), none),
   (("responsibilities", "Responsibilities"), none),
   (("salary_range", "Salary Range"), none)]

/-- The 8 default fields with exactly 4 null extractions. -/
def c5ValsFourNull : List ((String × String) × Option Str) :=
  [(("job_title", "Job Title"), some "Engineer".toList),
   (("workplace_type", "Workplace Type"), some "Remote".toList),
   (("employment_type", "Employment Type"), some "Full-time".toList),
   (("location", "Location"), some "Berlin".toList),
   (("seniority_level", "Seniority Level"), none),
   (("skills", "Skills"), none),
   (("responsibilities", "Responsibilities"), none),
   (("salary_range", "Salary Range"), none)]

/-- a pattern character test: digits and the decimal dot. -/
def ddChar (c : Char) : Bool := c.isDigit || c = '.'

/-- The constant contract text strictly before the
`clarifying_question_prob` dial value (through `"- "` of its line). -/
def contractPre0 : Str :=
  "INTERACTION CONTRACT (engine-controlled):".toList ++ '\n' ::
  "PRIORITIES:".toList ++ '\n' ::
  "1) mandatory_fields (answer recruiter; provide the requested field)".toList ++ '\n' ::
  "2) consultative_questions (only after fields are provided)".toList ++ '\n' ::
  "3) tangent_handling (micro-detours max 1 every 3–4 turns; resume last question)".toList ++ '\n' ::
  "4) closure_policy (when recruiter summarizes, confirm succinctly)".toList ++ '\n' ::
  "BEHAVIOR DIALS:".toList ++ '\n' :: '-' :: ' ' :: []

/-- The contract tail from the hesitation dial line on. -/
def contractTail (p : Persona) (d : Dials) (seed : ℕ) : Str :=
  "- hesitation_insert_prob: ".toList ++ (fmtDial d.hesitation_insert_prob ++ ('\n' ::
    ("- randomness_seed: ".toList ++ (natToDigits seed ++ ('\n' ::
      ("HESITATION PATTERNS: ".toList ++ hesitation_patterns_str p))))))

lemma count_take_findQ (l : Str) (q : ℕ) (h : findQ l = some q) :
    (l.take (q + 1)).count '?' = 1 := by
  induction l generalizing q with
  | nil => simp [findQ] at h
  | cons c rest ih =>
    by_cases hc : c = '?'
    · simp [findQ, hc] at h
      subst h
      simp [hc, List.count_cons]
    · simp [findQ, hc] at h
      obtain ⟨q', hq', rfl⟩ := h
      simp only [List.take_succ_cons, List.count_cons, ih q' hq']
      simp [hc]

lemma findQ_none_count (l : Str) (h : findQ l = none) : l.count '?' = 0 := by
  induction l with
  | nil => simp
  | cons c rest ih =>
    by_cases hc : c = '?'
    · simp [findQ, hc] at h
    · simp [findQ, hc] at h
      simp [List.count_cons, hc, ih h]

lemma count_pyStrip_le (l : Str) (c : Char) : (pyStrip l).count c ≤ l.count c := by
  unfold pyStrip
  calc ((l.dropWhile pyIsSpace).reverse.dropWhile pyIsSpace).reverse.count c
      = ((l.dropWhile pyIsSpace).reverse.dropWhile pyIsSpace).count c := by
        rw [List.count_reverse]
    _ ≤ (l.dropWhile pyIsSpace).reverse.count c :=
        (List.dropWhile_sublist _).count_le _
    _ = (l.dropWhile pyIsSpace).count c := by rw [List.count_reverse]
    _ ≤ l.count c := (List.dropWhile_sublist _).count_le _

/-- Claim C4: for every SUT reply that is not a summary announcement, the
text produced by single-question enforcement (first-turn or general-turn
variant) contains at most one `'?'` character. -/
theorem c4_single_question_invariant (text : Str)
    (h : check_sut_provided_summary text = false) :
    (enforce_single_question_first_turn text).count '?' ≤ 1 ∧
    (enforce_single_question_all_turns text).count '?' ≤ 1 := by
  clear h
  constructor
  · unfold enforce_single_question_first_turn
    split
    · decide
    · cases hq : findQ text with
      | none => show default_first_turn_message.count '?' ≤ 1; decide
      | some qpos =>
        show (if 500 < (pyStrip (text.take (qpos + 1))).length then
            default_first_turn_message else pyStrip (text.take (qpos + 1))).count '?' ≤ 1
        split
        · decide
        · calc (pyStrip (text.take (qpos + 1))).count '?'
              ≤ (text.take (qpos + 1)).count '?' := count_pyStrip_le _ _
            _ = 1 := count_take_findQ text qpos hq
  · unfold enforce_single_question_all_turns
    split
    · next he =>
      simp [List.isEmpty_iff] at he
      simp [he]
    · cases hq : findQ text with
      | none => simp [findQ_none_count text hq]
      | some qpos =>
        show (if (findQ (text.drop (qpos + 1))).isSome then
            pyStrip (text.take (qpos + 1)) else text).count '?' ≤ 1
        split
        · calc (pyStrip (text.take (qpos + 1))).count '?'
              ≤ (text.take (qpos + 1)).count '?' := count_pyStrip_le _ _
            _ = 1 := count_take_findQ text qpos hq
        · next hsome =>
          have hnone : findQ (text.drop (qpos + 1)) = none := by
            cases h' : findQ (text.drop (qpos + 1)) with
            | none => rfl
            | some v => rw [h'] at hsome; simp at hsome
          have hsplit := List.take_append_drop (qpos + 1) text
          calc text.count '?'
              = (text.take (qpos + 1) ++ text.drop (qpos + 1)).count '?' := by
                rw [hsplit]
            _ = (text.take (qpos + 1)).count '?' + (text.drop (qpos + 1)).count '?' := by
                rw [List.count_append]
            _ ≤ 1 := by
                rw [count_take_findQ text qpos hq, findQ_none_count _ hnone]

/-- Witness for C4 at the concrete reply `"one? two? three?"` (not a
summary announcement). -/
theorem c4_single_question_invariant_witness :
    (enforce_single_question_first_turn "one? two? three?".toList).count '?' ≤ 1 ∧
    (enforce_single_question_all_turns "one? two? three?".toList).count '?' ≤ 1 :=
  c4_single_question_invariant "one? two? three?".toList (by decide)

/-- Claim C9: on the first SUT turn, a non-summary reply with no `'?'` at
all, or whose prefix through the first `'?'` exceeds 500 characters after
trimming, is discarded entirely and replaced by the fixed default
greeting, which ends in its single question mark. -/
theorem c9_first_turn_fallback :
    (∀ text : Str, findQ text = none →
      enforce_single_question_first_turn text = default_first_turn_message) ∧
    (∀ text : Str, ∀ qpos : ℕ, findQ text = some qpos →
      500 < (pyStrip (text.take (qpos + 1))).length →
      enforce_single_question_first_turn text = default_first_turn_message) ∧
    default_first_turn_message.getLast? = some '?' ∧
    default_first_turn_message.count '?' = 1 := by
  refine ⟨fun text hnone => ?_, fun text qpos hq hlen => ?_, by decide, by decide⟩
  · unfold enforce_single_question_first_turn
    split
    · rfl
    · rw [hnone]
  · unfold enforce_single_question_first_turn
    split
    · rfl
    · rw [hq]
      simp only [hlen, if_pos]

/-- Witness for C9: a reply with no question mark, and a reply whose
prefix through its first `'?'` is 502 characters long, are both replaced
by the default greeting. -/
theorem c9_first_turn_fallback_witness :
    enforce_single_question_first_turn "hello".toList = default_first_turn_message ∧
    enforce_single_question_first_turn (List.replicate 501 'a' ++ ['?']) =
      default_first_turn_message :=
  ⟨c9_first_turn_fallback.1 "hello".toList (by decide),
   c9_first_turn_fallback.2.1 (List.replicate 501 'a' ++ ['?']) 501 (by decide) (by decide)⟩

/-- Claim C10: `_update_fields_captured` is monotone — captured fields
stay captured, a flag changes only from `false` to `true` (and only when
a mandatory-field label followed by a colon occurs in the SUT reply), and
when the `try` block raises the input mapping is returned unchanged. -/
theorem c10_update_fields_captured_monotone (mf : List (String × String))
    (raised : Bool) (fc : String → Bool) (sut_reply : Str) (k : String) :
    (fc k = true → update_fields_captured mf raised fc sut_reply k = true) ∧
    (update_fields_captured mf raised fc sut_reply k = fc k ∨
      (fc k = false ∧ update_fields_captured mf raised fc sut_reply k = true)) ∧
    (raised = true → update_fields_captured mf raised fc sut_reply = fc) := by
  refine ⟨fun htrue => ?_, ?_, fun hr => ?_⟩
  · unfold update_fields_captured
    split
    · exact htrue
    · simp [htrue]
  · unfold update_fields_captured
    split
    · left; rfl
    · cases hfc : fc k with
      | true => left; simp [hfc]
      | false =>
        cases hany : mf.any
            (fun kv => decide (kv.1 = k) && label_colon_occurs kv.2 sut_reply) with
        | true => right; simp [hfc, hany]
        | false => left; simp [hfc, hany]
  · unfold update_fields_captured
    simp [hr]

/-- Witness for C10 at the default mandatory-field set, an all-captured
input mapping, and a raising update. -/
theorem c10_update_fields_captured_monotone_witness :
    ((fun _ : String => true) "job_title" = true →
      update_fields_captured default_mandatory_fields true (fun _ => true)
        "Job Title: engineer".toList "job_title" = true) ∧
    (update_fields_captured default_mandatory_fields true (fun _ => true)
        "Job Title: engineer".toList "job_title" = (fun _ : String => true) "job_title" ∨
      ((fun _ : String => true) "job_title" = false ∧
        update_fields_captured default_mandatory_fields true (fun _ => true)
          "Job Title: engineer".toList "job_title" = true)) ∧
    (true = true →
      update_fields_captured default_mandatory_fields true (fun _ => true)
        "Job Title: engineer".toList = (fun _ => true)) :=
  c10_update_fields_captured_monotone default_mandatory_fields true (fun _ => true)
    "Job Title: engineer".toList "job_title"

lemma build_turn_controller_snd (mf : List (String × String)) (turn_idx : ℕ) (sut_reply : Str)
    (fc : String → Bool) (ltt : ℤ) (cd : ℕ) (contract : Str) (seed : ℕ) :
    (build_turn_controller mf turn_idx sut_reply fc ltt cd contract seed).2.1 =
      tangent_decision_fn mf sut_reply ltt cd turn_idx contract seed := rfl

lemma tangent_decision_true {mf : List (String × String)} {sut : Str} {ltt : ℤ} {cd : ℕ}
    {turn : ℕ} {contract : Str} {seed : ℕ}
    (h : tangent_decision_fn mf sut ltt cd turn contract seed = true) :
    ltt + cd ≤ (turn : ℤ) ∧ field_just_captured_check mf sut = true := by
  unfold tangent_decision_fn tangent_gate at h
  simp only [Bool.and_eq_true, decide_eq_true_eq] at h
  refine ⟨?_, h.1.2⟩
  have hmax := h.1.1
  rw [max_le_iff] at hmax
  omega

lemma run_turns_td_fjc (P : RunParams) (inputs : List (Str × Str)) :
    ∀ (fc : String → Bool) (ltt : ℤ) (k : ℕ) (i : ℕ) (r : TurnRec),
      (run_turns P fc ltt k inputs).get? i = some r →
      r.tangentDecision = true → field_just_captured_check P.mf r.sutReply = true := by
  induction inputs with
  | nil => intro fc ltt k i r h htd; simp [run_turns] at h
  | cons p rest ih =>
    intro fc ltt k i r hget htd
    obtain ⟨sut, proxy⟩ := p
    simp only [run_turns] at hget
    split at hget
    · cases i with
      | zero =>
        simp only [List.get?_cons_zero, Option.some.injEq] at hget
        subst hget
        rw [build_turn_controller_snd] at htd
        exact (tangent_decision_true htd).2
      | succ i' => simp at hget
    · cases i with
      | zero =>
        simp only [List.get?_cons_zero, Option.some.injEq] at hget
        subst hget
        rw [build_turn_controller_snd] at htd
        exact (tangent_decision_true htd).2
      | succ i' =>
        simp only [List.get?_cons_succ] at hget
        exact ih _ _ _ _ _ hget htd

lemma run_turns_td_ge (P : RunParams) (inputs : List (Str × Str)) :
    ∀ (fc : String → Bool) (ltt : ℤ) (k : ℕ), ltt ≤ (k : ℤ) →
    ∀ (i : ℕ) (r : TurnRec), (run_turns P fc ltt k inputs).get? i = some r →
      r.tangentDecision = true → ltt + 3 ≤ (k : ℤ) + i := by
  induction inputs with
  | nil => intro fc ltt k hk i r h htd; simp [run_turns] at h
  | cons p rest ih =>
    intro fc ltt k hk i r hget htd
    obtain ⟨sut, proxy⟩ := p
    simp only [run_turns] at hget
    split at hget
    · cases i with
      | zero =>
        simp only [List.get?_cons_zero, Option.some.injEq] at hget
        subst hget
        rw [build_turn_controller_snd] at htd
        have := (tangent_decision_true htd).1
        push_cast at this ⊢
        omega
      | succ i' => simp at hget
    · cases i with
      | zero =>
        simp only [List.get?_cons_zero, Option.some.injEq] at hget
        subst hget
        rw [build_turn_controller_snd] at htd
        have := (tangent_decision_true htd).1
        push_cast at this ⊢
        omega
      | succ i' =>
        simp only [List.get?_cons_succ] at hget
        have hmono : ltt ≤ (if (build_turn_controller P.mf k sut
            (update_fields_captured P.mf false fc sut) ltt 3 P.contract P.seed).2.1 ||
              detect_tangent proxy then (k : ℤ) else ltt) := by
          split
          · exact hk
          · exact le_rfl
        have hk' : (if (build_turn_controller P.mf k sut
            (update_fields_captured P.mf false fc sut) ltt 3 P.contract P.seed).2.1 ||
              detect_tangent proxy then (k : ℤ) else ltt) ≤ ((k + 1 : ℕ) : ℤ) := by
          split
          · push_cast; omega
          · push_cast; omega
        have := ih _ _ _ hk' i' r hget htd
        push_cast at this ⊢
        omega

lemma run_turns_cooldown (P : RunParams) (inputs : List (Str × Str)) :
    ∀ (fc : String → Bool) (ltt : ℤ) (k : ℕ), ltt ≤ (k : ℤ) →
    ∀ (i j : ℕ) (ri rj : TurnRec),
      (run_turns P fc ltt k inputs).get? i = some ri →
      (run_turns P fc ltt k inputs).get? j = some rj → i < j →
      ri.tangentDecision = true → rj.tangentDecision = true → i + 3 ≤ j := by
  induction inputs with
  | nil => intro fc ltt k hk i j ri rj hi hj hij hti htj; simp [run_turns] at hi
  | cons p rest ih =>
    intro fc ltt k hk i j ri rj hi hj hij hti htj
    obtain ⟨sut, proxy⟩ := p
    simp only [run_turns] at hi hj
    by_cases hbreak : (check_sut_provided_summary sut && check_proxy_confirmation proxy) = true
    · rw [if_pos hbreak] at hj
      cases j with
      | zero => omega
      | succ j' => simp at hj
    · rw [if_neg hbreak] at hi hj
      cases i with
      | zero =>
        cases j with
        | zero => omega
        | succ j' =>
          simp only [List.get?_cons_zero, Option.some.injEq] at hi
          subst hi
          dsimp only at hti
          simp only [List.get?_cons_succ] at hj
          rw [hti] at hj
          simp only [Bool.true_or, if_pos] at hj
          have := run_turns_td_ge P rest _ ((k : ℤ)) (k + 1) (by push_cast; omega)
            j' rj hj htj
          push_cast at this
          omega
      | succ i' =>
        cases j with
        | zero => omega
        | succ j' =>
          simp only [List.get?_cons_succ] at hi hj
          have hk' : (if ((build_turn_controller P.mf k sut
              (update_fields_captured P.mf false fc sut) ltt 3 P.contract P.seed).2.1 ||
                detect_tangent proxy) = true then (k : ℤ) else ltt) ≤ ((k + 1 : ℕ) : ℤ) := by
            split
            · push_cast; omega
            · push_cast; omega
          have := ih _ _ _ hk' i' j' ri rj hi hj (by omega) hti htj
          omega

/-- Claim C2: in every orchestrator run (initial `fields_captured` all
false, `last_tangent_turn = -10`, cooldown 3), the controller never
returns `tangent_decision = true` unless a mandatory-field label followed
by a colon appears in that turn's SUT reply, and no two
`tangent_decision = true` turns occur within `cooldown_turns = 3` of each
other. -/
theorem c2_tangent_cooldown_and_capture (P : RunParams) (inputs : List (Str × Str)) :
    (∀ (i : ℕ) (r : TurnRec),
      (run_turns P (fun _ => false) (-10) 0 inputs).get? i = some r →
      r.tangentDecision = true → field_just_captured_check P.mf r.sutReply = true) ∧
    (∀ (i j : ℕ) (ri rj : TurnRec),
      (run_turns P (fun _ => false) (-10) 0 inputs).get? i = some ri →
      (run_turns P (fun _ => false) (-10) 0 inputs).get? j = some rj → i < j →
      ri.tangentDecision = true → rj.tangentDecision = true → i + 3 ≤ j) :=
  ⟨fun i r h htd => run_turns_td_fjc P inputs (fun _ => false) (-10) 0 i r h htd,
   fun i j ri rj hi hj hij hti htj =>
    run_turns_cooldown P inputs (fun _ => false) (-10) 0 (by norm_num) i j ri rj
      hi hj hij hti htj⟩

/-- Witness for C2: in the concrete run the tangent fires on turns 0 and
3 (indices 3 apart) and on each the SUT reply carries a field label. -/
theorem c2_tangent_cooldown_and_capture_witness :
    field_just_captured_check c2WitnessParams.mf
      (⟨0, "Job Title: x".toList, true, "no"⟩ : TurnRec).sutReply = true ∧
    0 + 3 ≤ 3 :=
  ⟨(c2_tangent_cooldown_and_capture c2WitnessParams c2WitnessInputs).1 0
      ⟨0, "Job Title: x".toList, true, "no"⟩ (by decide) (by decide),
   (c2_tangent_cooldown_and_capture c2WitnessParams c2WitnessInputs).2 0 3
      ⟨0, "Job Title: x".toList, true, "no"⟩ ⟨3, "Job Title: x".toList, true, "yes"⟩
      (by decide) (by decide) (by decide) (by decide) (by decide)⟩

/-- Claim C3: gating is deterministic.  The hash roll `_rand_01` factors
through the payload string `f"{seed}:{turn_idx}:{kind}"` (equal payloads
give equal rolls), and `_build_turn_controller` is a pure function of
`(mandatory_fields, turn_idx, sut_reply, fields_captured,
last_tangent_turn, cooldown, contract_text, seed)`: two invocations with
equal inputs return identical `controller_text`, `tangent_decision` and
`clarifying_allowed`. -/
theorem c3_controller_determinism :
    (∀ (s₁ t₁ : ℕ) (k₁ : Str) (s₂ t₂ : ℕ) (k₂ : Str),
      randPayload s₁ t₁ k₁ = randPayload s₂ t₂ k₂ →
      rand_01 s₁ t₁ k₁ = rand_01 s₂ t₂ k₂) ∧
    (∀ (mf₁ mf₂ : List (String × String)) (turn₁ turn₂ : ℕ) (sut₁ sut₂ : Str)
      (fc₁ fc₂ : String → Bool) (ltt₁ ltt₂ : ℤ) (cd₁ cd₂ : ℕ)
      (contract₁ contract₂ : Str) (seed₁ seed₂ : ℕ),
      mf₁ = mf₂ → turn₁ = turn₂ → sut₁ = sut₂ → fc₁ = fc₂ → ltt₁ = ltt₂ → cd₁ = cd₂ →
      contract₁ = contract₂ → seed₁ = seed₂ →
      build_turn_controller mf₁ turn₁ sut₁ fc₁ ltt₁ cd₁ contract₁ seed₁ =
        build_turn_controller mf₂ turn₂ sut₂ fc₂ ltt₂ cd₂ contract₂ seed₂) := by
  constructor
  · intro s₁ t₁ k₁ s₂ t₂ k₂ h
    unfold rand_01 rand_01_n
    rw [h]
  · intro mf₁ mf₂ turn₁ turn₂ sut₁ sut₂ fc₁ fc₂ ltt₁ ltt₂ cd₁ cd₂ c₁ c₂ s₁ s₂
      h1 h2 h3 h4 h5 h6 h7 h8
    subst h1; subst h2; subst h3; subst h4; subst h5; subst h6; subst h7; subst h8
    rfl

/-- Witness for C3 at seed 5, turn 0, kind `"clarify"`, and one concrete
controller invocation repeated twice. -/
theorem c3_controller_determinism_witness :
    rand_01 5 0 "clarify".toList = rand_01 5 0 "clarify".toList ∧
    build_turn_controller default_mandatory_fields 0 "Job Title: x".toList (fun _ => false)
        (-10) 3 "tangent_prob_after_field: 1.0".toList 5 =
      build_turn_controller default_mandatory_fields 0 "Job Title: x".toList (fun _ => false)
        (-10) 3 "tangent_prob_after_field: 1.0".toList 5 :=
  ⟨c3_controller_determinism.1 5 0 "clarify".toList 5 0 "clarify".toList rfl,
   c3_controller_determinism.2 default_mandatory_fields default_mandatory_fields 0 0
     "Job Title: x".toList "Job Title: x".toList (fun _ => false) (fun _ => false)
     (-10) (-10) 3 3 "tangent_prob_after_field: 1.0".toList
     "tangent_prob_after_field: 1.0".toList 5 5 rfl rfl rfl rfl rfl rfl rfl rfl⟩

/-- Claim C1: with `timeout_reached = True` and a non-empty `api_errors`
list, the outcome status is `TIMEOUT` (not `ERROR`) with
`completion_level = 25`, while every `api_errors` entry is still recorded
as its own `FailureDetail`, categorised by substring sniffing
(`classify_api_error`). -/
theorem c1_timeout_wins_over_api_errors (mf : List (String × String)) (turns : List Turn)
    (sut_provided_summary proxy_confirmed : Bool) (api_errors : List Str)
    (elapsed_time : ℚ) (timeout_limit : ℕ) (hne : api_errors ≠ []) :
    (determine_conversation_outcome mf turns sut_provided_summary proxy_confirmed true
      api_errors elapsed_time timeout_limit).status = ConversationStatus.TIMEOUT ∧
    (determine_conversation_outcome mf turns sut_provided_summary proxy_confirmed true
      api_errors elapsed_time timeout_limit).completion_level = 25 ∧
    ∀ (i : ℕ) (e : Str), api_errors.get? i = some e →
      api_error_failure i e ∈ (determine_conversation_outcome mf turns sut_provided_summary
        proxy_confirmed true api_errors elapsed_time timeout_limit).failures := by
  refine ⟨rfl, rfl, fun i e hie => ?_⟩
  have hmem : (i, e) ∈ api_errors.enum := by
    rw [List.mem_enum_iff_get?]
    exact hie
  have hmem2 : api_error_failure i e ∈
      api_errors.enum.map (fun ie => api_error_failure ie.1 ie.2) :=
    List.mem_map_of_mem _ hmem
  simp only [determine_conversation_outcome, List.mem_append]
  tauto

/-- Witness for C1: empty turn list, one API error mentioning the proxy,
timeout reached. -/
theorem c1_timeout_wins_over_api_errors_witness :
    (determine_conversation_outcome default_mandatory_fields [] false false true
      ["Proxy API error at turn 1: boom".toList] 130 120).status =
        ConversationStatus.TIMEOUT ∧
    (determine_conversation_outcome default_mandatory_fields [] false false true
      ["Proxy API error at turn 1: boom".toList] 130 120).completion_level = 25 ∧
    ∀ (i : ℕ) (e : Str), ["Proxy API error at turn 1: boom".toList].get? i = some e →
      api_error_failure i e ∈ (determine_conversation_outcome default_mandatory_fields []
        false false true ["Proxy API error at turn 1: boom".toList] 130 120).failures :=
  c1_timeout_wins_over_api_errors default_mandatory_fields [] false false
    ["Proxy API error at turn 1: boom".toList] 130 120 (by decide)

/-- Claim C5: over the 8-field default mandatory set, the completeness
analyzer emits an `INCOMPLETE_INFORMATION` failure exactly when more than
50% of the fields extract as null; at exactly 5 of 8 nulls it emits one
failure carrying the missing-field list and the completion percentage
(37.5), and at exactly 4 of 8 it emits none. -/
theorem c5_completeness_threshold (vals : List ((String × String) × Option Str))
    (hmf : vals.map Prod.fst = default_mandatory_fields) :
    ((∃ f ∈ completeness_failures vals,
        f.category = FailureCategory.INCOMPLETE_INFORMATION) ↔
      8 < 2 * (missing_field_names vals).length) ∧
    ((missing_field_names vals).length = 5 →
      completeness_failures vals =
        [{ category := .INCOMPLETE_INFORMATION,
           reason := "Missing 5 out of 8 mandatory fields".toList,
           context := some [("missing_fields", .strs (missing_field_names vals)),
             ("gathered_fields", .strs (gathered_field_keys vals)),
             ("completion_percentage", .q (mkRat 300 8))] }]) ∧
    ((missing_field_names vals).length = 4 → completeness_failures vals = []) := by
  have hlen : vals.length = 8 := by
    have h := congrArg List.length hmf
    simpa using h
  simp only [completeness_failures]
  rw [hlen]
  refine ⟨⟨fun hex => ?_, fun hgt => ?_⟩, fun h5 => ?_, fun h4 => ?_⟩
  · by_contra hle
    rw [if_neg hle] at hex
    obtain ⟨f, hf, _⟩ := hex
    exact absurd hf (List.not_mem_nil f)
  · rw [if_pos hgt]
    exact ⟨_, List.mem_singleton.mpr rfl, rfl⟩
  · rw [h5, if_pos (by norm_num : (8 : ℕ) < 2 * 5)]
    rfl
  · rw [h4, if_neg (by norm_num : ¬ (8 : ℕ) < 2 * 4)]

/-- Witness for C5 at two concrete extraction results: 5 of 8 null fires
one failure, 4 of 8 null fires none. -/
theorem c5_completeness_threshold_witness :
    completeness_failures c5ValsFiveNull =
      [{ category := .INCOMPLETE_INFORMATION,
         reason := "Missing 5 out of 8 mandatory fields".toList,
         context := some [("missing_fields", .strs (missing_field_names c5ValsFiveNull)),
           ("gathered_fields", .strs (gathered_field_keys c5ValsFiveNull)),
           ("completion_percentage", .q (mkRat 300 8))] }] ∧
    completeness_failures c5ValsFourNull = [] :=
  ⟨(c5_completeness_threshold c5ValsFiveNull (by decide)).2.1 (by decide),
   (c5_completeness_threshold c5ValsFourNull (by decide)).2.2 (by decide)⟩

/-- Claim C8: field extraction on
`"Employment Type: Full-time and Location: Remote"` yields
`employment_type = "Full-time"`, `workplace_type = "Remote"` and
`location = "Remote"`. -/
theorem c8_round_trip_extraction :
    ((("employment_type", "Employment Type"), some "Full-time".toList) ∈
      extract_all_fields default_mandatory_fields
        "Employment Type: Full-time and Location: Remote".toList) ∧
    ((("workplace_type", "Workplace Type"), some "Remote".toList) ∈
      extract_all_fields default_mandatory_fields
        "Employment Type: Full-time and Location: Remote".toList) ∧
    ((("location", "Location"), some "Remote".toList) ∈
      extract_all_fields default_mandatory_fields
        "Employment Type: Full-time and Location: Remote".toList) := by
  refine ⟨?_, ?_, ?_⟩ <;> decide

lemma roundHalfEven_le_add_half (q : ℚ) : (roundHalfEven q : ℚ) ≤ q + 1/2 := by
  have hf : (⌊q⌋ : ℚ) ≤ q := Int.floor_le q
  simp only [roundHalfEven]
  split_ifs with h1 h2 h3
  · linarith
  · push_cast
    linarith [not_lt.mp h1]
  · linarith
  · push_cast
    linarith [not_lt.mp h1]

lemma le_roundHalfEven_add_half (q : ℚ) : q - 1/2 ≤ (roundHalfEven q : ℚ) := by
  have hf : (⌊q⌋ : ℚ) ≤ q := Int.floor_le q
  have hc : q < (⌊q⌋ : ℚ) + 1 := Int.lt_floor_add_one q
  simp only [roundHalfEven]
  split_ifs with h1 h2 h3 <;> push_cast <;> linarith

lemma roundHalfEven_nonneg (q : ℚ) (h : 0 ≤ q) : 0 ≤ roundHalfEven q := by
  have := le_roundHalfEven_add_half q
  have h' : (-1 : ℚ) < (roundHalfEven q : ℚ) := by linarith
  have h'' : (-1 : ℤ) < roundHalfEven q := by exact_mod_cast h'
  omega

lemma roundHalfEven_le_of_le (q : ℚ) (B : ℤ) (h : q ≤ B) : roundHalfEven q ≤ B := by
  have := roundHalfEven_le_add_half q
  have h' : (roundHalfEven q : ℚ) < (B : ℚ) + 1 := by linarith
  have h'' : roundHalfEven q < B + 1 := by exact_mod_cast h'
  omega

lemma round3_thousandths (x : ℚ) (h0 : 0 ≤ x) (h1 : x ≤ 1) :
    ∃ k : ℕ, k ≤ 1000 ∧ round3 x = (k : ℚ) / 1000 := by
  have hnn : 0 ≤ roundHalfEven (x * 1000) := roundHalfEven_nonneg _ (by linarith)
  have hub : roundHalfEven (x * 1000) ≤ 1000 := roundHalfEven_le_of_le _ 1000 (by push_cast; linarith)
  refine ⟨(roundHalfEven (x * 1000)).toNat, by omega, ?_⟩
  unfold round3
  congr 1
  exact_mod_cast (Int.toNat_of_nonneg hnn).symm

lemma round3_bounds (x : ℚ) (h0 : 0 ≤ x) (h1 : x ≤ 1) : 0 ≤ round3 x ∧ round3 x ≤ 1 := by
  obtain ⟨k, hk, hval⟩ := round3_thousandths x h0 h1
  rw [hval]
  constructor
  · positivity
  · rw [div_le_one (by norm_num)]
    exact_mod_cast hk

lemma clamp01_nonneg (x : ℚ) : 0 ≤ clamp01 x := le_max_left _ _

lemma clamp01_le_one (x : ℚ) : clamp01 x ≤ 1 := max_le (by norm_num) (min_le_left _ _)

/-- Claim C7: for every persona and scenario (missing values, extreme
pressure levels, propensities at 0 or 1, or any rational at all), each of
the three computed behavior dials lies in `[0, 1]`. -/
theorem c7_dial_bounds (p : Persona) (s : Scenario) (e : ℕ) :
    (0 ≤ (compute_runtime_dials p s e).1.clarifying_question_prob ∧
      (compute_runtime_dials p s e).1.clarifying_question_prob ≤ 1) ∧
    (0 ≤ (compute_runtime_dials p s e).1.tangent_prob_after_field ∧
      (compute_runtime_dials p s e).1.tangent_prob_after_field ≤ 1) ∧
    (0 ≤ (compute_runtime_dials p s e).1.hesitation_insert_prob ∧
      (compute_runtime_dials p s e).1.hesitation_insert_prob ≤ 1) := by
  obtain ⟨x, y, z, hxyz⟩ : ∃ x y z : ℚ, (compute_runtime_dials p s e).1 =
      ⟨round3 (clamp01 x), round3 (clamp01 y), round3 (clamp01 z)⟩ := ⟨_, _, _, rfl⟩
  rw [hxyz]
  exact ⟨round3_bounds _ (clamp01_nonneg x) (clamp01_le_one x),
    round3_bounds _ (clamp01_nonneg y) (clamp01_le_one y),
    round3_bounds _ (clamp01_nonneg z) (clamp01_le_one z)⟩

lemma tryNumHere_none_of_no_name {name l : Str} (h : ¬ name <+: l) : tryNumHere name l = none := by
  unfold tryNumHere
  rw [if_neg fun hc => h (List.isPrefixOf_iff_prefix.mp hc)]

lemma drop_append_of_le (C B : Str) (p : ℕ) (hp : p ≤ C.length) :
    (C ++ B).drop p = C.drop p ++ B := by
  rw [List.drop_append_eq_append_drop, Nat.sub_eq_zero_of_le hp, List.drop_zero]

lemma prefix_append_take (name X B : Str) :
    name <+: (X ++ B) ↔ name <+: (X ++ B.take name.length) := by
  rw [List.prefix_iff_eq_take, List.prefix_iff_eq_take,
      List.take_append_eq_append_take, List.take_append_eq_append_take,
      List.take_take, min_eq_left (Nat.sub_le _ _)]

lemma searchNum_cons_none {name : Str} {c : Char} {rest : Str}
    (h : tryNumHere name (c :: rest) = none) :
    searchNum name (c :: rest) = searchNum name rest := by
  simp only [searchNum]
  rw [h]

lemma searchNum_skip (name : Str) (C : Str) :
    ∀ (B : Str), (∀ p, p < C.length → ¬ name <+: ((C ++ B).drop p)) →
      searchNum name (C ++ B) = searchNum name B := by
  induction C with
  | nil => intro B _; simp
  | cons c C' ih =>
    intro B h
    rw [List.cons_append,
      searchNum_cons_none (tryNumHere_none_of_no_name (by simpa using h 0 (by simp)))]
    exact ih B (fun p hp => by simpa using h (p + 1) (by simpa using hp))

lemma searchNum_skip_win (name C B : Str)
    (h : ∀ p, p < C.length → ¬ name <+: (C.drop p ++ B.take name.length)) :
    searchNum name (C ++ B) = searchNum name B := by
  apply searchNum_skip
  intro p hp
  rw [drop_append_of_le C B p (le_of_lt hp), prefix_append_take]
  exact h p hp

lemma not_prefix_digit_ext (name X V B : Str)
    (hname : name.all (fun c => !(ddChar c)) = true)
    (hnNE : name ≠ []) (hV : V.all ddChar = true) (hVne : V ≠ []) (hX : ¬ name <+: X) :
    ¬ name <+: (X ++ (V ++ B)) := by
  intro h
  rcases le_or_lt name.length X.length with hle | hlt
  · apply hX
    rw [List.prefix_iff_eq_take] at h ⊢
    rwa [List.take_append_eq_append_take, Nat.sub_eq_zero_of_le hle, List.take_zero,
      List.append_nil] at h
  · have hVpos : 0 < V.length := List.length_pos.mpr hVne
    rw [List.prefix_iff_eq_take] at h
    have hchar : name[X.length]? = (X ++ (V ++ B))[X.length]? := by
      conv_lhs => rw [h]
      rw [List.getElem?_take_of_lt hlt]
    rw [List.getElem?_append_right (le_refl X.length), Nat.sub_self,
      List.getElem?_append_left hVpos] at hchar
    obtain ⟨cN, hcN⟩ : ∃ cN, name[X.length]? = some cN :=
      ⟨_, List.getElem?_eq_getElem hlt⟩
    obtain ⟨cV, hcV⟩ : ∃ cV, V[0]? = some cV :=
      ⟨_, List.getElem?_eq_getElem hVpos⟩
    rw [hcN, hcV, Option.some.injEq] at hchar
    rw [List.all_eq_true] at hname hV
    have ha := hname cN (List.getElem?_mem hcN)
    have hb := hV cV (List.getElem?_mem hcV)
    rw [hchar, hb] at ha
    simp at ha

lemma all_ddChar_drop {V : Str} (p : ℕ) (hV : V.all ddChar = true) :
    (V.drop p).all ddChar = true := by
  rw [List.all_eq_true] at hV ⊢
  exact fun c hc => hV c (List.mem_of_mem_drop hc)

lemma searchNum_skip_digits (name C V B : Str)
    (hname : name.all (fun c => !(ddChar c)) = true) (hnNE : name ≠ [])
    (hV : V.all ddChar = true) (hVne : V ≠ [])
    (hC : ∀ p, p < C.length → ¬ name <+: C.drop p) :
    searchNum name (C ++ (V ++ B)) = searchNum name B := by
  have hnil : ¬ name <+: ([] : Str) := fun hc => hnNE (List.prefix_nil.mp hc)
  have h1 : searchNum name (C ++ (V ++ B)) = searchNum name (V ++ B) := by
    apply searchNum_skip
    intro p hp
    rw [drop_append_of_le C (V ++ B) p (le_of_lt hp)]
    exact not_prefix_digit_ext name (C.drop p) V B hname hnNE hV hVne (hC p hp)
  rw [h1]
  apply searchNum_skip
  intro p hp
  rw [drop_append_of_le V B p (le_of_lt hp)]
  have hdne : V.drop p ≠ [] := by
    intro hc
    have := congrArg List.length hc
    rw [List.length_drop] at this
    simp at this
    omega
  have := not_prefix_digit_ext name [] (V.drop p) B hname hnNE (all_ddChar_drop p hV)
    hdne hnil
  simpa using this

lemma searchNum_found {name : Str} (r : Str) (v : ℚ) (hname : name ≠ [])
    (h : tryNumHere name (name ++ r) = some v) :
    searchNum name (name ++ r) = some v := by
  cases hn : name with
  | nil => exact absurd hn hname
  | cons c nt =>
    subst hn
    rw [List.cons_append] at h ⊢
    simp only [searchNum]
    rw [h]

lemma digitChar_isDigit : ∀ a, a < 10 → (digitChar a).isDigit = true := by decide

lemma digitChar_val : ∀ a, a < 10 → (digitChar a).toNat - 48 = a := by decide

lemma fmtDial_eq (k : ℕ) (hk : k ≤ 1000) :
    fmtDial ((k : ℚ) / 1000) =
      if 1000 ≤ k then ['1', '.', '0']
      else '0' :: '.' ::
        (if k % 100 = 0 then [digitChar (k / 100)]
         else if k % 10 = 0 then [digitChar (k / 100), digitChar (k / 10 % 10)]
         else [digitChar (k / 100), digitChar (k / 10 % 10), digitChar (k % 10)]) := by
  unfold fmtDial
  have h1 : ((k : ℚ) / 1000) * 1000 = (k : ℚ) := by
    field_simp
  rw [h1]
  norm_num [Int.floor_natCast]

lemma fmtDial_all_ddChar (k : ℕ) (hk : k ≤ 1000) :
    (fmtDial ((k : ℚ) / 1000)).all ddChar = true := by
  rw [fmtDial_eq k hk]
  have h10 : k / 10 % 10 < 10 := by omega
  have h1 : k % 10 < 10 := by omega
  split_ifs with hA hB hC
  · decide
  · have h100 : k / 100 < 10 := by omega
    simp [ddChar, digitChar_isDigit _ h100]
  · have h100 : k / 100 < 10 := by omega
    simp [ddChar, digitChar_isDigit _ h100, digitChar_isDigit _ h10]
  · have h100 : k / 100 < 10 := by omega
    simp [ddChar, digitChar_isDigit _ h100, digitChar_isDigit _ h10, digitChar_isDigit _ h1]

lemma fmtDial_ne_nil (k : ℕ) (hk : k ≤ 1000) : fmtDial ((k : ℚ) / 1000) ≠ [] := by
  rw [fmtDial_eq k hk]
  split_ifs <;> simp

lemma mkRat_natCast_div (a b : ℕ) : mkRat (a : ℤ) b = (a : ℚ) / (b : ℚ) := by
  rw [Rat.mkRat_eq_divInt, Rat.divInt_eq_div]
  push_cast
  rfl

lemma takeWhile_digits (ds : Str) (c : Char) (r : Str)
    (hds : ds.all Char.isDigit = true) (hc : c.isDigit = false) :
    (ds ++ c :: r).takeWhile Char.isDigit = ds := by
  induction ds with
  | nil => simp [List.takeWhile_cons, hc]
  | cons d dt ih =>
    rw [List.all_cons, Bool.and_eq_true] at hds
    simp [List.takeWhile_cons, hds.1, ih hds.2]

lemma parseNumGroup_int_frac (ds1 ds2 : Str) (c : Char) (rem : Str)
    (h1 : ds1.all Char.isDigit = true) (h2 : ds2.all Char.isDigit = true)
    (h2ne : ds2 ≠ []) (hc : c.isDigit = false) :
    parseNumGroup (ds1 ++ '.' :: (ds2 ++ c :: rem)) =
      some (mkRat (((ds1.foldl (fun a d => 10 * a + (d.toNat - 48)) 0) * 10 ^ ds2.length +
        ds2.foldl (fun a d => 10 * a + (d.toNat - 48)) 0 : ℕ) : ℤ) (10 ^ ds2.length)) := by
  have ht1 : (ds1 ++ '.' :: (ds2 ++ c :: rem)).takeWhile Char.isDigit = ds1 :=
    takeWhile_digits ds1 '.' _ h1 (by decide)
  simp only [parseNumGroup, ht1, List.drop_left, takeWhile_digits ds2 c rem h2 hc,
    List.isEmpty_iff]
  rw [if_neg h2ne]

lemma fracRat_eq (num den k : ℕ) (hden : (den : ℚ) ≠ 0) (h : num * 1000 = k * den) :
    mkRat (num : ℤ) den = (k : ℚ) / 1000 := by
  rw [mkRat_natCast_div, div_eq_div_iff hden (by norm_num)]
  exact_mod_cast congrArg (Nat.cast (R := ℚ)) h

lemma parseNumGroup_fmtDial (k : ℕ) (hk : k ≤ 1000) (rem : Str) :
    parseNumGroup (fmtDial ((k : ℚ) / 1000) ++ '\n' :: rem) = some ((k : ℚ) / 1000) := by
  rw [fmtDial_eq k hk]
  by_cases hA : 1000 ≤ k
  · have hk1000 : k = 1000 := by omega
    subst hk1000
    rw [if_pos hA]
    rw [show (['1', '.', '0'] : Str) ++ '\n' :: rem =
      ['1'] ++ '.' :: (['0'] ++ '\n' :: rem) from rfl]
    rw [parseNumGroup_int_frac ['1'] ['0'] '\n' rem (by decide) (by decide) (by decide)
      (by decide)]
    refine congrArg some (fracRat_eq _ _ _ (by norm_num) ?_)
    simp only [List.foldl_cons, List.foldl_nil, List.length_cons, List.length_nil,
      show ('0'.toNat - 48) = 0 from by decide, show ('1'.toNat - 48) = 1 from by decide]
    norm_num
  · rw [if_neg hA]
    have hklt : k < 1000 := by omega
    have h100lt : k / 100 < 10 := by omega
    have h10lt : k / 10 % 10 < 10 := by omega
    have h1lt : k % 10 < 10 := by omega
    by_cases hB : k % 100 = 0
    · rw [if_pos hB]
      rw [show ('0' :: '.' :: [digitChar (k / 100)]) ++ '\n' :: rem =
        ['0'] ++ '.' :: ([digitChar (k / 100)] ++ '\n' :: rem) from rfl]
      rw [parseNumGroup_int_frac ['0'] [digitChar (k / 100)] '\n' rem (by decide)
        (by simp [digitChar_isDigit _ h100lt]) (by simp) (by decide)]
      refine congrArg some (fracRat_eq _ _ _ (by norm_num) ?_)
      simp only [List.foldl_cons, List.foldl_nil, List.length_cons, List.length_nil,
        show ('0'.toNat - 48) = 0 from by decide, digitChar_val _ h100lt]
      omega
    · rw [if_neg hB]
      by_cases hC : k % 10 = 0
      · rw [if_pos hC]
        rw [show ('0' :: '.' :: [digitChar (k / 100), digitChar (k / 10 % 10)]) ++
          '\n' :: rem =
          ['0'] ++ '.' :: ([digitChar (k / 100), digitChar (k / 10 % 10)] ++ '\n' :: rem)
          from rfl]
        rw [parseNumGroup_int_frac ['0'] [digitChar (k / 100), digitChar (k / 10 % 10)]
          '\n' rem (by decide)
          (by simp [digitChar_isDigit _ h100lt, digitChar_isDigit _ h10lt]) (by simp)
          (by decide)]
        refine congrArg some (fracRat_eq _ _ _ (by norm_num) ?_)
        simp only [List.foldl_cons, List.foldl_nil, List.length_cons, List.length_nil,
          show ('0'.toNat - 48) = 0 from by decide, digitChar_val _ h100lt,
          digitChar_val _ h10lt]
        omega
      · rw [if_neg hC]
        rw [show ('0' :: '.' :: [digitChar (k / 100), digitChar (k / 10 % 10),
            digitChar (k % 10)]) ++ '\n' :: rem =
          ['0'] ++ '.' :: ([digitChar (k / 100), digitChar (k / 10 % 10),
            digitChar (k % 10)] ++ '\n' :: rem) from rfl]
        rw [parseNumGroup_int_frac ['0']
          [digitChar (k / 100), digitChar (k / 10 % 10), digitChar (k % 10)] '\n' rem
          (by decide)
          (by simp [digitChar_isDigit _ h100lt, digitChar_isDigit _ h10lt,
            digitChar_isDigit _ h1lt])
          (by simp) (by decide)]
        refine congrArg some (fracRat_eq _ _ _ (by norm_num) ?_)
        simp only [List.foldl_cons, List.foldl_nil, List.length_cons, List.length_nil,
          show ('0'.toNat - 48) = 0 from by decide, digitChar_val _ h100lt,
          digitChar_val _ h10lt, digitChar_val _ h1lt]
        omega

lemma ddChar_not_space (c : Char) (h : ddChar c = true) : pyIsSpace c = false := by
  by_contra hs
  rw [Bool.not_eq_false] at hs
  have hc : c = ' ' ∨ c = '\t' ∨ c = '\n' ∨ c = '\r' ∨ c = '\x0b' ∨ c = '\x0c' := by
    rw [pyIsSpace] at hs
    simpa [or_assoc] using hs
  rcases hc with rfl | rfl | rfl | rfl | rfl | rfl <;> revert h <;> decide

lemma tryNumHere_dial (name : Str) (k : ℕ) (hk : k ≤ 1000) (rem : Str) :
    tryNumHere name (name ++ ':' :: ' ' :: (fmtDial ((k : ℚ) / 1000) ++ '\n' :: rem)) =
      some ((k : ℚ) / 1000) := by
  obtain ⟨d, t, hd⟩ : ∃ d t, fmtDial ((k : ℚ) / 1000) = d :: t := by
    cases hfd : fmtDial ((k : ℚ) / 1000) with
    | nil => exact absurd hfd (fmtDial_ne_nil k hk)
    | cons d t => exact ⟨d, t, rfl⟩
  have hdd : ddChar d = true := by
    have := fmtDial_all_ddChar k hk
    rw [hd, List.all_cons, Bool.and_eq_true] at this
    exact this.1
  have hdns : pyIsSpace d = false := ddChar_not_space d hdd
  unfold tryNumHere
  rw [if_pos (List.isPrefixOf_iff_prefix.mpr (List.prefix_append _ _))]
  rw [List.drop_left]
  rw [show (':' :: ' ' :: (fmtDial ((k : ℚ) / 1000) ++ '\n' :: rem)).dropWhile pyIsSpace =
      ':' :: ' ' :: (fmtDial ((k : ℚ) / 1000) ++ '\n' :: rem) from by
    rw [List.dropWhile_cons_of_neg (by decide)]]
  show parseNumGroup ((' ' :: (fmtDial ((k : ℚ) / 1000) ++ '\n' :: rem)).dropWhile pyIsSpace)
    = some ((k : ℚ) / 1000)
  rw [List.dropWhile_cons_of_pos (by decide)]
  rw [hd, List.cons_append, List.dropWhile_cons_of_neg (by rw [hdns]; exact Bool.false_ne_true),
    ← List.cons_append, ← hd]
  exact parseNumGroup_fmtDial k hk rem

lemma contract_shape (p : Persona) (s : Scenario) (d : Dials) (seed : ℕ) :
    build_interaction_contract p s d seed =
      contractPre0 ++ ("clarifying_question_prob".toList ++ (':' :: ' ' ::
        (fmtDial d.clarifying_question_prob ++ ('\n' :: '-' :: ' ' ::
          ("tangent_prob_after_field".toList ++ (':' :: ' ' ::
            (fmtDial d.tangent_prob_after_field ++ ('\n' ::
              contractTail p d seed)))))))) := by
  simp only [build_interaction_contract, joinNL, contractPre0, contractTail]
  rw [show "- clarifying_question_prob: ".toList =
    '-' :: ' ' :: ("clarifying_question_prob".toList ++ [':', ' ']) from by decide]
  rw [show "- tangent_prob_after_field: ".toList =
    '-' :: ' ' :: ("tangent_prob_after_field".toList ++ [':', ' ']) from by decide]
  simp [List.append_assoc, List.cons_append]

lemma contract_search_clar (p : Persona) (s : Scenario) (d : Dials) (seed : ℕ)
    (kc : ℕ) (hkc : kc ≤ 1000) (hc : d.clarifying_question_prob = (kc : ℚ) / 1000) :
    searchNum "clarifying_question_prob".toList (build_interaction_contract p s d seed) =
      some d.clarifying_question_prob := by
  rw [contract_shape, hc]
  rw [searchNum_skip_win "clarifying_question_prob".toList contractPre0 _ ?hwin]
  case hwin =>
    rw [List.take_left' (by rfl)]
    decide
  exact searchNum_found _ _ (by decide) (tryNumHere_dial _ kc hkc _)

lemma contract_search_tang (p : Persona) (s : Scenario) (d : Dials) (seed : ℕ)
    (kc kt : ℕ) (hkc : kc ≤ 1000) (hkt : kt ≤ 1000)
    (hc : d.clarifying_question_prob = (kc : ℚ) / 1000)
    (ht : d.tangent_prob_after_field = (kt : ℚ) / 1000) :
    searchNum "tangent_prob_after_field".toList (build_interaction_contract p s d seed) =
      some d.tangent_prob_after_field := by
  rw [contract_shape, hc, ht]
  have hassoc : contractPre0 ++ ("clarifying_question_prob".toList ++ (':' :: ' ' ::
      (fmtDial ((kc : ℚ) / 1000) ++ ('\n' :: '-' :: ' ' ::
        ("tangent_prob_after_field".toList ++ (':' :: ' ' ::
          (fmtDial ((kt : ℚ) / 1000) ++ ('\n' :: contractTail p d seed)))))))) =
      (contractPre0 ++ "clarifying_question_prob".toList ++ [':', ' ']) ++
        (fmtDial ((kc : ℚ) / 1000) ++ (('\n' :: '-' :: ' ' :: []) ++
          ("tangent_prob_after_field".toList ++ (':' :: ' ' ::
            (fmtDial ((kt : ℚ) / 1000) ++ ('\n' :: contractTail p d seed)))))) := by
    simp [List.append_assoc]
  rw [hassoc]
  rw [searchNum_skip_digits "tangent_prob_after_field".toList
    (contractPre0 ++ "clarifying_question_prob".toList ++ [':', ' '])
    (fmtDial ((kc : ℚ) / 1000)) _ (by decide) (by decide)
    (fmtDial_all_ddChar kc hkc) (fmtDial_ne_nil kc hkc) ?hC]
  case hC => decide
  rw [searchNum_skip_win "tangent_prob_after_field".toList ('\n' :: '-' :: ' ' :: []) _ ?hwin2]
  case hwin2 =>
    rw [List.take_left' (by rfl)]
    decide
  exact searchNum_found _ _ (by decide) (tryNumHere_dial _ kt hkt _)

/-- Claim C6: round-trip of dial values through the interaction contract.
For every dials mapping produced by the dial computer, the turn
controller's numeric extraction applied to the contract-builder output
succeeds (no fallback to the 0.4/0.2 defaults) and recovers exactly the
embedded `clarifying_question_prob` and `tangent_prob_after_field`
values. -/
theorem c6_contract_dial_round_trip (p : Persona) (s : Scenario) (e seed : ℕ) :
    searchNum "clarifying_question_prob".toList
        (build_interaction_contract p s (compute_runtime_dials p s e).1 seed) =
      some ((compute_runtime_dials p s e).1.clarifying_question_prob) ∧
    searchNum "tangent_prob_after_field".toList
        (build_interaction_contract p s (compute_runtime_dials p s e).1 seed) =
      some ((compute_runtime_dials p s e).1.tangent_prob_after_field) ∧
    extract_float "clarifying_question_prob".toList 0.4
        (build_interaction_contract p s (compute_runtime_dials p s e).1 seed) =
      (compute_runtime_dials p s e).1.clarifying_question_prob ∧
    extract_float "tangent_prob_after_field".toList 0.2
        (build_interaction_contract p s (compute_runtime_dials p s e).1 seed) =
      (compute_runtime_dials p s e).1.tangent_prob_after_field := by
  obtain ⟨x, y, z, hd⟩ : ∃ x y z : ℚ, (compute_runtime_dials p s e).1 =
      ⟨round3 (clamp01 x), round3 (clamp01 y), round3 (clamp01 z)⟩ := ⟨_, _, _, rfl⟩
  obtain ⟨kc, hkc, hcv⟩ := round3_thousandths (clamp01 x) (clamp01_nonneg x) (clamp01_le_one x)
  obtain ⟨kt, hkt, htv⟩ := round3_thousandths (clamp01 y) (clamp01_nonneg y) (clamp01_le_one y)
  have hc : (compute_runtime_dials p s e).1.clarifying_question_prob = (kc : ℚ) / 1000 := by
    rw [hd]
    exact hcv
  have ht : (compute_runtime_dials p s e).1.tangent_prob_after_field = (kt : ℚ) / 1000 := by
    rw [hd]
    exact htv
  have h1 := contract_search_clar p s (compute_runtime_dials p s e).1 seed kc hkc hc
  have h2 := contract_search_tang p s (compute_runtime_dials p s e).1 seed kc kt hkc hkt hc ht
  refine ⟨h1, h2, ?_, ?_⟩
  · unfold extract_float
    rw [h1]
    rfl
  · unfold extract_float
    rw [h2]
    rfl
